import Mathlib

/-!
Verification of the mcp-endpoint-server WebSocket router core.

The development shallowly embeds the Python sources
`src/core/connection_manager.py` and `src/handlers/websocket_handler.py`:
JSON values become an inductive type, Python dicts become association
lists, the process-wide `ConnectionManager` singleton becomes an explicit
state value, and the two asynchronous message handlers become pure state
transformers that additionally return the list of frames they attempted
to send.  Socket sends are resolved by an explicit environment mapping a
socket identifier to an outcome, mirroring the `try/except` structure of
the source.
-/

set_option autoImplicit false

namespace McpEndpoint

/-- A JSON value.  JSON-RPC ids in the source are integers or strings;
numeric values are modelled as integers (the router never manipulates
float payloads and no claim involves one). -/
inductive Json where
  | null
  | bool (b : Bool)
  | num (n : Int)
  | str (s : String)
  | arr (items : List Json)
  | obj (fields : List (String × Json))
  deriving Repr

mutual

/-- Decidable equality of JSON values (hand-written: deriving does not
handle the nested inductive). -/
def Json.decEq : (a b : Json) → Decidable (a = b)
  | .null, .null => isTrue rfl
  | .bool a, .bool b =>
    if h : a = b then isTrue (by rw [h]) else isFalse (fun hh => h (by injection hh))
  | .num a, .num b =>
    if h : a = b then isTrue (by rw [h]) else isFalse (fun hh => h (by injection hh))
  | .str a, .str b =>
    if h : a = b then isTrue (by rw [h]) else isFalse (fun hh => h (by injection hh))
  | .arr a, .arr b =>
    match Json.decEqList a b with
    | isTrue h => isTrue (by rw [h])
    | isFalse h => isFalse (fun hh => h (by injection hh))
  | .obj a, .obj b =>
    match Json.decEqFields a b with
    | isTrue h => isTrue (by rw [h])
    | isFalse h => isFalse (fun hh => h (by injection hh))
  | .null, .bool _ | .null, .num _ | .null, .str _ | .null, .arr _ | .null, .obj _
  | .bool _, .null | .bool _, .num _ | .bool _, .str _ | .bool _, .arr _ | .bool _, .obj _
  | .num _, .null | .num _, .bool _ | .num _, .str _ | .num _, .arr _ | .num _, .obj _
  | .str _, .null | .str _, .bool _ | .str _, .num _ | .str _, .arr _ | .str _, .obj _
  | .arr _, .null | .arr _, .bool _ | .arr _, .num _ | .arr _, .str _ | .arr _, .obj _
  | .obj _, .null | .obj _, .bool _ | .obj _, .num _ | .obj _, .str _ | .obj _, .arr _ =>
    isFalse (fun h => by cases h)

/-- Decidable equality of JSON value lists. -/
def Json.decEqList : (a b : List Json) → Decidable (a = b)
  | [], [] => isTrue rfl
  | [], _ :: _ => isFalse (fun h => by cases h)
  | _ :: _, [] => isFalse (fun h => by cases h)
  | x :: xs, y :: ys =>
    match Json.decEq x y with
    | isFalse h1 => isFalse (fun hh => h1 (by injection hh))
    | isTrue h1 =>
      match Json.decEqList xs ys with
      | isTrue h2 => isTrue (by rw [h1, h2])
      | isFalse h2 => isFalse (fun hh => h2 (by injection hh))

/-- Decidable equality of JSON object field lists. -/
def Json.decEqFields : (a b : List (String × Json)) → Decidable (a = b)
  | [], [] => isTrue rfl
  | [], _ :: _ => isFalse (fun h => by cases h)
  | _ :: _, [] => isFalse (fun h => by cases h)
  | (k1, v1) :: xs, (k2, v2) :: ys =>
    if h1 : k1 = k2 then
      match Json.decEq v1 v2 with
      | isFalse h2 => isFalse (fun hh => by cases hh; exact h2 rfl)
      | isTrue h2 =>
        match Json.decEqFields xs ys with
        | isTrue h3 => isTrue (by rw [h1, h2, h3])
        | isFalse h3 => isFalse (fun hh => by cases hh; exact h3 rfl)
    else isFalse (fun hh => by cases hh; exact h1 rfl)

end

instance : DecidableEq Json := Json.decEq

/-- A parsed JSON object, i.e. a Python dict, as an association list in
insertion order (Python dicts preserve insertion order). -/
abbrev JsonObj := List (String × Json)

/-- First-match association-list lookup: Python `d[k]` / `d.get(k)`. -/
def alookup {α : Type} : List (String × α) → String → Option α
  | [], _ => none
  | kv :: rest, k => if kv.1 = k then some kv.2 else alookup rest k

/-- Python `d[k] = v`: replace the value at an existing key in place
(Python dict assignment keeps the key position), otherwise append. -/
def aset {α : Type} (l : List (String × α)) (k : String) (v : α) : List (String × α) :=
  if (alookup l k).isSome then
    l.map (fun kv => if kv.1 = k then (k, v) else kv)
  else
    l ++ [(k, v)]

/-- Python `del d[k]`. -/
def aerase {α : Type} (l : List (String × α)) (k : String) : List (String × α) :=
  l.filter (fun kv => kv.1 ≠ k)

/-- Python truthiness of a JSON value (`if x:`). -/
def Json.truthy : Json → Bool
  | .null => false
  | .bool b => b
  | .num n => n != 0
  | .str s => s ≠ ""
  | .arr items => !items.isEmpty
  | .obj fields => !fields.isEmpty

/-- Character-list membership, Python `c in s`. -/
def containsChar (c : Char) : List Char → Bool
  | [] => false
  | d :: rest => d = c || containsChar c rest

/-! ### Decimal rendering of integers (Python `str(int)` / f-string) -/

/-- Little-endian base-10 digits with explicit fuel so the definition is
structural and kernel-reducible; `natDigits` supplies adequate fuel. -/
def natDigitsAux : Nat → Nat → List Nat
  | 0, _ => []
  | fuel + 1, n => if n = 0 then [] else n % 10 :: natDigitsAux fuel (n / 10)

/-- Little-endian base-10 digits of a natural number (empty for 0). -/
def natDigits (n : Nat) : List Nat := natDigitsAux n n

/-- Value of a little-endian digit list. -/
def digitsVal : List Nat → Nat
  | [] => 0
  | d :: ds => d + 10 * digitsVal ds

/-- Decimal rendering of a natural number, as Python `str` produces it. -/
def natDecimal (n : Nat) : String :=
  if n = 0 then "0" else String.mk ((natDigits n).reverse.map Nat.digitChar)

/-- Decimal rendering of an integer, as Python `str` / an f-string
produces it: no plus sign, a single leading minus for negatives. -/
def intDecimal : Int → String
  | .ofNat n => natDecimal n
  | .negSucc m => "-" ++ natDecimal (m + 1)

/-! ### Python `int(str)` parsing, used by `_restore_jsonrpc_id` -/

/-- Whitespace stripped by Python `int()` (ASCII subset; the ids the
router produces never contain whitespace). -/
def isPyWhitespace (c : Char) : Bool :=
  c = ' ' || c = '\t' || c = '\n' || c = '\r' || c = '\x0b' || c = '\x0c'

/-- Python `str.strip()` on a character list. -/
def pyStrip (cs : List Char) : List Char :=
  ((cs.dropWhile isPyWhitespace).reverse.dropWhile isPyWhitespace).reverse

/-- Tail of Python's integer-literal digit grammar: digits with single
underscores allowed strictly between digits. -/
def digitsTail : List Char → Bool
  | [] => true
  | c :: rest =>
    if c = '_' then
      match rest with
      | [] => false
      | d :: rest2 => d.isDigit && digitsTail rest2
    else c.isDigit && digitsTail rest

/-- Python's integer-literal digit grammar: nonempty, starts with a
digit, underscores only between digits. -/
def digitsOk : List Char → Bool
  | [] => false
  | c :: rest => c.isDigit && digitsTail rest

/-- Value of a digit-character list, skipping grouping underscores. -/
def digitsCharVal (cs : List Char) : Nat :=
  cs.foldl (fun a c => if c = '_' then a else a * 10 + (c.toNat - 48)) 0

/-- Parse an unsigned digit part per Python `int()`. -/
def pyParseDigits (cs : List Char) : Option Nat :=
  if digitsOk cs then some (digitsCharVal cs) else none

/-- Sign handling of Python `int()`: an optional single leading sign
followed by the digit part. -/
def pySignParse : List Char → Option Int
  | [] => none
  | c :: rest =>
    if c = '+' then (pyParseDigits rest).map Int.ofNat
    else if c = '-' then (pyParseDigits rest).map Int.negOfNat
    else (pyParseDigits (c :: rest)).map Int.ofNat

/-- Python `int(s)` on a character list: strip whitespace, optional
single sign, digit part. -/
def pyParseIntChars (cs : List Char) : Option Int :=
  pySignParse (pyStrip cs)

/-- Python `int(s)`: `some` on success, `none` when `int()` raises
`ValueError`. -/
def pyParseInt (s : String) : Option Int := pyParseIntChars s.data

/-! ### Python `s.split(sep, 2)` used by `_restore_jsonrpc_id` -/

/-- Split a character list at the first underscore. -/
def splitOnceChar : List Char → Option (List Char × List Char)
  | [] => none
  | c :: rest =>
    if c = '_' then some ([], rest)
    else (splitOnceChar rest).map (fun p => (c :: p.1, p.2))

/-- Python `s.split(sep=under, maxsplit=2)`: at most three parts, the last
part keeping any further separators. -/
def pySplit2 (cs : List Char) : List (List Char) :=
  match splitOnceChar cs with
  | none => [cs]
  | some (a, b) =>
    match splitOnceChar b with
    | none => [a, b]
    | some (c, d) => [a, c, d]

mutual

/-- Python `repr` of a JSON-shaped value, as far as the router could ever
render one (only reachable through `str()` on non-int, non-str ids, which
no claim observes; container rendering approximates CPython spacing). -/
def pyRepr : Json → String
  | .null => "None"
  | .bool b => if b then "True" else "False"
  | .num n => intDecimal n
  | .str s => "\x27" ++ s ++ "\x27"
  | .arr items => "[" ++ pyReprList items ++ "]"
  | .obj fields => "\x7b" ++ pyReprFields fields ++ "\x7d"

/-- Comma-joined `repr` of list items. -/
def pyReprList : List Json → String
  | [] => ""
  | [x] => pyRepr x
  | x :: rest => pyRepr x ++ ", " ++ pyReprList rest

/-- Comma-joined `repr` of dict entries. -/
def pyReprFields : List (String × Json) → String
  | [] => ""
  | [(k, v)] => "\x27" ++ k ++ "\x27: " ++ pyRepr v
  | (k, v) :: rest => "\x27" ++ k ++ "\x27: " ++ pyRepr v ++ ", " ++ pyReprFields rest

end

/-- Python `str()` of a JSON-shaped value. -/
def pyStr : Json → String
  | .str s => s
  | other => pyRepr other

/-! ### The ID Rewriter (`connection_manager.py`, lines 124-204) -/

/-- Embeds `_transform_jsonrpc_id`: an integer id becomes
`uuid_n_decimal`, a string id becomes `uuid_s_literal`, anything else is
rendered with `str()` under the `s` tag.  Python's `isinstance(x, int)`
is true for booleans, so they take the numeric branch and are rendered
`True`/`False` by the f-string. -/
def transform_jsonrpc_id (original_id : Json) (connection_uuid : String) : String :=
  match original_id with
  | .num n => connection_uuid ++ "_n_" ++ intDecimal n
  | .bool b => connection_uuid ++ "_n_" ++ (if b then "True" else "False")
  | .str s => connection_uuid ++ "_s_" ++ s
  | other => connection_uuid ++ "_s_" ++ pyStr other

/-- Tag dispatch of `_restore_jsonrpc_id` on the three split parts:
`n` parses a decimal with string fallback, `s` maps the literal
`"null"` to an absent id, an unknown tag keeps the raw rest. -/
def restoreTag (a b c : List Char) : Option String × Json :=
  if String.mk b = "n" then
    match pyParseInt (String.mk c) with
    | some n => (some (String.mk a), .num n)
    | none => (some (String.mk a), .str (String.mk c))
  else if String.mk b = "s" then
    if String.mk c = "null" then (some (String.mk a), .null)
    else (some (String.mk a), .str (String.mk c))
  else (some (String.mk a), .str (String.mk c))

/-- Body of `_restore_jsonrpc_id` over the id's characters: reject an
empty or separator-free id, split into at most three parts, dispatch on
the type tag. -/
def restore_jsonrpc_chars (cs : List Char) : Option String × Json :=
  if cs.isEmpty || !containsChar '_' cs then (none, .null)
  else
    match pySplit2 cs with
    | [a, b, c] => restoreTag a b c
    | _ => (none, .null)

/-- Embeds `_restore_jsonrpc_id`.  Returns `(connection_uuid?, original_id)`;
`(none, .null)` is the source's `(None, None)` failure value. -/
def restore_jsonrpc_id (transformed_id : String) : Option String × Json :=
  restore_jsonrpc_chars transformed_id.data

/-- Embeds `transform_jsonrpc_message`: copy the dict and rewrite a
present, truthy `id`.  The source's copy-then-mutate is pure here, so
the input is untouched by construction. -/
def transform_jsonrpc_message (message : JsonObj) (connection_uuid : String) : JsonObj :=
  match alookup message "id" with
  | some original_id =>
    if original_id.truthy then
      aset message "id" (.str (transform_jsonrpc_id original_id connection_uuid))
    else message
  | none => message

/-- Embeds `restore_jsonrpc_message`: restore a present `id` and report
the decoded caller UUID; the source's `if connection_uuid:` truthiness
test makes an empty decoded UUID count as failure.  A present id that is
truthy but not a string makes the Python body raise `TypeError`, which
the only caller swallows with identical observable effect to the
failure value returned here. -/
def restore_jsonrpc_message (message : JsonObj) : Option String × JsonObj :=
  match alookup message "id" with
  | some (.str transformed_id) =>
    match restore_jsonrpc_id transformed_id with
    | (some connection_uuid, original_id) =>
      if connection_uuid ≠ "" then (some connection_uuid, aset message "id" original_id)
      else (none, message)
    | (none, _) => (none, message)
  | _ => (none, message)

/-! ### Connection registry data model (`connection_manager.py`) -/

/-- A caller (robot) connection.  The socket is an opaque identifier;
`timestamp` is dropped (wall-clock time, observed by no claim). -/
structure RobotConnection where
  socket : Nat
  agent_id : String
  connection_uuid : String
  deriving Repr, DecidableEq

/-- A tool-server connection.  `connection_uuid` and `timestamp` are
carried/dropped as in `RobotConnection`; `tools` is the name-indexed
tool map built by `update_tool_list`. -/
structure MCPServerConnection where
  socket : Nat
  agent_id : String
  server_id : String
  connection_uuid : String
  tools : List (String × Json)
  server_info : JsonObj
  deriving Repr, DecidableEq

/-- A pending fan-out correlation.  `expected_servers` is stored
deduplicated, modelling the source's `set(expected_servers)` (the
callers always pass duplicate-free lists); `received_responses` is a
dict in arrival order. -/
structure PendingResponse where
  request_id : Json
  connection_uuid : String
  expected_servers : List String
  received_responses : List (String × JsonObj)
  deriving Repr, DecidableEq

/-- The `ConnectionManager` singleton's state: the two connection maps
and the pending table.  `connection_timestamps` and the asyncio lock are
dropped (time and scheduling, observed by no claim; the handlers run to
completion between suspension points exactly as the single-threaded
event loop interleaves them). -/
structure ConnectionManager where
  mcp_server_connections : List (String × List (String × MCPServerConnection))
  robot_connections : List (String × RobotConnection)
  pending_responses : List (String × PendingResponse)
  deriving Repr, DecidableEq

/-- Lookup of the tool-server connection registered for a pair. -/
def lookupServer (cm : ConnectionManager) (agent_id server_id : String) :
    Option MCPServerConnection :=
  alookup ((alookup cm.mcp_server_connections agent_id).getD []) server_id

/-- A close frame sent to a websocket: status code and reason. -/
structure CloseEvent where
  socket : Nat
  code : Nat
  reason : String
  deriving Repr, DecidableEq

/-- Outcome of a raw socket send: success, `ConnectionClosed`, or any
other exception. -/
inductive SendResult where
  | ok
  | closed
  | failed
  deriving Repr, DecidableEq

/-- Environment resolving each socket send attempt, standing in for the
network. -/
structure SendEnv where
  robotSend : Nat → SendResult
  serverSend : Nat → SendResult

/-- Embeds `register_mcp_server_connection`: close a displaced old
connection with status 1000 and reason `"新连接替换"`, then install the
new connection in the slot.  The fresh `uuid.uuid4()` is passed in;
returns the close frames attempted (the source swallows close failures,
so the attempt itself is the observable event). -/
def register_mcp_server_connection (cm : ConnectionManager)
    (agent_id server_id : String) (socket : Nat) (fresh_uuid : String) :
    ConnectionManager × List CloseEvent :=
  ({ cm with mcp_server_connections := (
      aset cm.mcp_server_connections agent_id
        (aset ((alookup cm.mcp_server_connections agent_id).getD []) server_id
          ⟨socket, agent_id, server_id, fresh_uuid, [], []⟩)) },
   match alookup ((alookup cm.mcp_server_connections agent_id).getD []) server_id with
   | some old => [CloseEvent.mk old.socket 1000 "新连接替换"]
   | none => [])

/-- Embeds `register_robot_connection` (a fresh UUID is passed in). -/
def register_robot_connection (cm : ConnectionManager) (agent_id : String)
    (socket : Nat) (fresh_uuid : String) : ConnectionManager :=
  { cm with robot_connections := (
      aset cm.robot_connections fresh_uuid ⟨socket, agent_id, fresh_uuid⟩) }

/-- Embeds `unregister_mcp_server_connection`: delete the pair's entry
and drop the agent's dict when it becomes empty. -/
def unregister_mcp_server_connection (cm : ConnectionManager)
    (agent_id server_id : String) : ConnectionManager :=
  match alookup cm.mcp_server_connections agent_id with
  | none => cm
  | some servers =>
    if (alookup servers server_id).isSome then
      if (aerase servers server_id).isEmpty then
        { cm with mcp_server_connections := aerase cm.mcp_server_connections agent_id }
      else
        { cm with mcp_server_connections := (
            aset cm.mcp_server_connections agent_id (aerase servers server_id)) }
    else cm

/-- Embeds `unregister_robot_connection`. -/
def unregister_robot_connection (cm : ConnectionManager)
    (connection_uuid : String) : ConnectionManager :=
  { cm with robot_connections := aerase cm.robot_connections connection_uuid }

/-- Embeds `is_mcp_server_connected`. -/
def is_mcp_server_connected (cm : ConnectionManager) (agent_id server_id : String) : Bool :=
  match alookup cm.mcp_server_connections agent_id with
  | some servers => (alookup servers server_id).isSome
  | none => false

/-- Embeds `get_agent_servers`: the agent's server ids in registration
order. -/
def get_agent_servers (cm : ConnectionManager) (agent_id : String) : List String :=
  ((alookup cm.mcp_server_connections agent_id).getD []).map Prod.fst

/-- Embeds `find_tool_server`: first server of the agent whose tool map
contains the name.  A non-string name never matches a string key, as in
Python's `x in dict`. -/
def find_tool_server_aux (tool_name : Json) :
    List (String × MCPServerConnection) → Option String
  | [] => none
  | (server_id, mcp_conn) :: rest =>
    match tool_name with
    | .str s =>
      if (alookup mcp_conn.tools s).isSome then some server_id
      else find_tool_server_aux tool_name rest
    | _ => find_tool_server_aux tool_name rest

/-- Embeds `find_tool_server`. -/
def find_tool_server (cm : ConnectionManager) (agent_id : String)
    (tool_name : Json) : Option String :=
  match alookup cm.mcp_server_connections agent_id with
  | none => none
  | some servers => find_tool_server_aux tool_name servers

/-- A message send attempted by a handler, with its addressee and
whether the socket accepted it.  The JSON payload is recorded in place
of its `json.dumps` serialization (the dict determines the wire bytes). -/
inductive Evt where
  | toRobot (connection_uuid : String) (frame : JsonObj) (delivered : Bool)
  | toServer (agent_id server_id : String) (frame : JsonObj) (delivered : Bool)
  deriving Repr, DecidableEq

/-- Embeds `forward_to_mcp_server`: `false` without an attempt when the
pair has no connection; any non-closing send failure returns `false`.
CAUTION on the `ConnectionClosed` branch: this definition gives it the
unregister-and-return-`False` continuation the code intends (and the
spec's section 4.B states), but in the source that `except` clause
awaits `unregister_mcp_server_connection` while the body still holds
the non-reentrant registry `asyncio.Lock`, so the path actually blocks
forever; `forward_to_mcp_server_locked` below is the lock-faithful
embedding, and no theorem's conclusion relies on this completing
branch. -/
def forward_to_mcp_server (cm : ConnectionManager) (agent_id server_id : String)
    (frame : JsonObj) (env : SendEnv) : Bool × ConnectionManager × List Evt :=
  match alookup cm.mcp_server_connections agent_id with
  | none => (false, cm, [])
  | some servers =>
    match alookup servers server_id with
    | none => (false, cm, [])
    | some mcp_conn =>
      match env.serverSend mcp_conn.socket with
      | .ok => (true, cm, [.toServer agent_id server_id frame true])
      | .closed => (false, unregister_mcp_server_connection cm agent_id server_id,
          [.toServer agent_id server_id frame false])
      | .failed => (false, cm, [.toServer agent_id server_id frame false])

/-- Embeds `forward_to_robot_by_uuid`, with the same contract against
the caller map — including the same caveat: the source's
`ConnectionClosed` clause awaits `unregister_robot_connection`, which
re-acquires the held non-reentrant registry lock and blocks forever;
the branch is modelled here as the intended completing continuation
and is exercised by no claim's conclusion (the claims' send
environments deliver or fail without closing). -/
def forward_to_robot_by_uuid (cm : ConnectionManager) (connection_uuid : String)
    (frame : JsonObj) (env : SendEnv) : Bool × ConnectionManager × List Evt :=
  match alookup cm.robot_connections connection_uuid with
  | none => (false, cm, [])
  | some robot_conn =>
    match env.robotSend robot_conn.socket with
    | .ok => (true, cm, [.toRobot connection_uuid frame true])
    | .closed => (false, unregister_robot_connection cm connection_uuid,
        [.toRobot connection_uuid frame false])
    | .failed => (false, cm, [.toRobot connection_uuid frame false])

/-- Result of awaiting a coroutine that may re-acquire the registry's
non-reentrant `asyncio.Lock` from the task already holding it: either
it completes with a value, or it blocks forever. -/
inductive LockedResult (α : Type) where
  | completes (a : α)
  | deadlocks
  deriving Repr, DecidableEq

/-- Embeds `unregister_mcp_server_connection` together with its
`async with self._lock:` entry: awaited while the same task already
holds the lock it blocks forever; otherwise it completes with the
deletion. -/
def unregister_mcp_server_connection_locked (lock_held : Bool)
    (cm : ConnectionManager) (agent_id server_id : String) :
    LockedResult ConnectionManager :=
  if lock_held then .deadlocks
  else .completes (unregister_mcp_server_connection cm agent_id server_id)

/-- Lock-faithful embedding of `forward_to_mcp_server`: its body runs
under `async with self._lock:`, and the `except ConnectionClosed`
clause awaits `unregister_mcp_server_connection`, which re-acquires
that same held non-reentrant lock — so the closed-socket path blocks
forever, reaching neither its `return False` nor the registry
deletion. -/
def forward_to_mcp_server_locked (cm : ConnectionManager)
    (agent_id server_id : String) (frame : JsonObj) (env : SendEnv) :
    LockedResult (Bool × ConnectionManager × List Evt) :=
  match alookup cm.mcp_server_connections agent_id with
  | none => .completes (false, cm, [])
  | some servers =>
    match alookup servers server_id with
    | none => .completes (false, cm, [])
    | some mcp_conn =>
      match env.serverSend mcp_conn.socket with
      | .ok => .completes (true, cm, [.toServer agent_id server_id frame true])
      | .closed =>
        match unregister_mcp_server_connection_locked true cm agent_id server_id with
        | .deadlocks => .deadlocks
        | .completes cm2 =>
          .completes (false, cm2, [.toServer agent_id server_id frame false])
      | .failed => .completes (false, cm, [.toServer agent_id server_id frame false])

/-- Embeds `register_pending_response`: keyed by the transformed request
id; `expected_servers` deduplicated as by `set()`. -/
def register_pending_response (cm : ConnectionManager) (transformed_request_id : String)
    (request_id : Json) (connection_uuid : String) (expected_servers : List String) :
    ConnectionManager :=
  { cm with pending_responses := (
      aset cm.pending_responses transformed_request_id
        ⟨request_id, connection_uuid, expected_servers.eraseDups, []⟩) }

/-- Embeds `add_server_response`: record the response under this
`server_id` with no membership check against `expected_servers`, and
return the pending entry when every expected server has responded. -/
def add_server_response (cm : ConnectionManager) (transformed_request_id : String)
    (server_id : String) (response : JsonObj) :
    ConnectionManager × Option PendingResponse :=
  match alookup cm.pending_responses transformed_request_id with
  | none => (cm, none)
  | some pending =>
    let pending2 : PendingResponse :=
      { pending with received_responses := (
          aset pending.received_responses server_id response) }
    ({ cm with pending_responses := (
        aset cm.pending_responses transformed_request_id pending2) },
     if pending2.expected_servers.all
          (fun s => (alookup pending2.received_responses s).isSome)
     then some pending2 else none)

/-- Embeds `remove_pending_response` (idempotent). -/
def remove_pending_response (cm : ConnectionManager)
    (transformed_request_id : String) : ConnectionManager :=
  { cm with pending_responses := aerase cm.pending_responses transformed_request_id }

/-- Stamp `server_id` on each tool dict, as the aggregation loop's
`tool[server-id-key] = server_id` does. -/
def stampTools (server_id : String) (tools : List Json) : List Json :=
  tools.map (fun t =>
    match t with
    | .obj fields => .obj (aset fields "server_id" (.str server_id))
    | other => other)

/-- One iteration of the aggregation loop over
`pending.received_responses.items()`.  `none` models the loop raising
(non-dict `result`, non-list `tools`/`content`, non-dict tool entry or
`error`), which the source catches to produce the `-32603` frame.
Three pathological corners are folded into `none` although Python
completes them without raising: an empty-string or empty-dict `tools`
(the for-loop iterates nothing), and a *string* `content` (extend adds
its characters one by one); none is reachable from any theorem's
inputs. -/
def aggStep (server_id : String) (response : JsonObj)
    (acc : List Json × Json × String) : Option (List Json × Json × String) :=
  let idv := (alookup response "id").getD (.str "")
  match alookup response "result" with
  | some (.obj result) =>
    match alookup result "tools" with
    | some (.arr tools) =>
      if tools.all (fun t => match t with | .obj _ => true | _ => false) then
        some (acc.1 ++ stampTools server_id tools, idv, "tools")
      else none
    | some _ => none
    | none =>
      match alookup result "content" with
      | some (.arr content) => some (acc.1 ++ content, idv, "content")
      | some _ => none
      | none =>
        some (acc.1 ++ [.obj (aset result "server_id" (.str server_id))], idv, acc.2.2)
  | some _ => none
  | none =>
    match alookup response "error" with
    | some (.obj err) =>
      some (acc.1 ++ [.obj [("error", .obj (aset err "server_id" (.str server_id)))]],
        idv, acc.2.2)
    | some _ => none
    | none => some (acc.1, idv, acc.2.2)

/-- The aggregation loop over the received responses in arrival order. -/
def aggLoop : List (String × JsonObj) → (List Json × Json × String) →
    Option (List Json × Json × String)
  | [], acc => some acc
  | (server_id, response) :: rest, acc =>
    match aggStep server_id response acc with
    | some acc2 => aggLoop rest acc2
    | none => none

/-- Embeds `aggregate_responses`: flatten `tools`/`content` payloads or
collect generic `responses`, attach `total_servers`/`responded_servers`,
copy the (rewritten) id from the last response; on an exception inside
the loop return the `-32603` frame carrying the original request id.
The `details` text stands in for the Python exception message (observed
by no claim). -/
def aggregate_responses (pending : PendingResponse) : JsonObj :=
  match aggLoop pending.received_responses ([], .str "", "") with
  | some (all_responses, idv, flag) =>
    if flag = "tools" || flag = "content" then
      [("jsonrpc", .str "2.0"), ("id", idv),
       ("result", .obj [(flag, .arr all_responses),
         ("total_servers", .num pending.expected_servers.length),
         ("responded_servers", .num pending.received_responses.length)])]
    else
      [("jsonrpc", .str "2.0"), ("id", idv),
       ("result", .obj [("responses", .arr all_responses),
         ("total_servers", .num pending.expected_servers.length),
         ("responded_servers", .num pending.received_responses.length)])]
  | none =>
    [("jsonrpc", .str "2.0"), ("id", pending.request_id),
     ("error", .obj [("code", .num (-32603)),
       ("message", .str "聚合响应时发生错误"),
       ("data", .obj [("details", .str "aggregation exception")])])]

/-- Embeds `update_tool_list`: stamp `server_id` on each tool and
replace the connection's tool map, indexing by each tool's `name`.  A
tool entry without a `name` key makes the Python comprehension raise
`KeyError` (swallowed by `_handle_tools_list_response`, leaving the map
unchanged); an entry whose name is not a string would create a
non-string dict key that the string-keyed lookups can never reach; both
corners are folded into the guard. -/
def update_tool_list (cm : ConnectionManager) (agent_id server_id : String)
    (tools : List Json) : ConnectionManager :=
  match alookup cm.mcp_server_connections agent_id with
  | none => cm
  | some servers =>
    match alookup servers server_id with
    | none => cm
    | some mcp_conn =>
      if tools.all (fun t =>
          match t with
          | .obj fields => (match alookup fields "name" with
            | some (.str _) => true
            | _ => false)
          | _ => false) then
        let stamped := stampTools server_id tools
        let toolMap := stamped.foldl (fun m t =>
          match t with
          | .obj fields => (match alookup fields "name" with
            | some (.str s) => aset m s (.obj fields)
            | _ => m)
          | _ => m) []
        { cm with mcp_server_connections := (
            aset cm.mcp_server_connections agent_id
              (aset servers server_id { mcp_conn with tools := toolMap })) }
      else cm

/-- Embeds `update_server_info`. -/
def update_server_info (cm : ConnectionManager) (agent_id server_id : String)
    (server_info : JsonObj) : ConnectionManager :=
  match alookup cm.mcp_server_connections agent_id with
  | none => cm
  | some servers =>
    match alookup servers server_id with
    | none => cm
    | some mcp_conn =>
      { cm with mcp_server_connections := (
          aset cm.mcp_server_connections agent_id
            (aset servers server_id { mcp_conn with server_info := server_info })) }

/-! ### JSON-RPC protocol constants and error frames

Modelled from the spec: `src/utils/jsonrpc.py` (`JSONRPCProtocol`,
`create_tool_not_connected_error`, `create_forward_failed_error`) is
imported by `websocket_handler.py` but absent from the sources; the
constants follow the spec's section-6 error-code registry, and the
response shape is the JSON-RPC 2.0 error object the spec describes.
The two custom codes sit in the implementation-defined server-error
range; their exact values are unspecified, so representative distinct
values are chosen. -/

/-- Modelled from the spec: `JSONRPCProtocol.INVALID_PARAMS`. -/
def INVALID_PARAMS : Int := -32602

/-- Modelled from the spec: `JSONRPCProtocol.METHOD_NOT_FOUND`. -/
def METHOD_NOT_FOUND : Int := -32601

/-- Modelled from the spec: `JSONRPCProtocol.INTERNAL_ERROR`. -/
def INTERNAL_ERROR : Int := -32603

/-- Modelled from the spec: `JSONRPCProtocol.TOOL_NOT_CONNECTED`, a
custom code in the server-error range (exact value unspecified). -/
def TOOL_NOT_CONNECTED : Int := -32001

/-- Modelled from the spec: `JSONRPCProtocol.FORWARD_FAILED`, a custom
code in the server-error range (exact value unspecified). -/
def FORWARD_FAILED : Int := -32002

/-- Modelled from the spec: `JSONRPCProtocol.create_error_response`
followed by `to_dict`, a JSON-RPC 2.0 error frame carrying the caller's
request id. -/
def create_error_response (error_code : Int) (error_message : String)
    (request_id : Json) : JsonObj :=
  [("jsonrpc", .str "2.0"), ("id", request_id),
   ("error", .obj [("code", .num error_code), ("message", .str error_message)])]

/-- Modelled from the spec: `create_tool_not_connected_error`. -/
def create_tool_not_connected_error (request_id : Json) (agent_id : String) : JsonObj :=
  create_error_response TOOL_NOT_CONNECTED
    ("智能体没有连接的MCP服务器: " ++ agent_id) request_id

/-- Modelled from the spec: `create_forward_failed_error`. -/
def create_forward_failed_error (request_id : Json) (agent_id : String) : JsonObj :=
  create_error_response FORWARD_FAILED
    ("转发消息给MCP服务器失败: " ++ agent_id) request_id

/-! ### WebSocket handlers (`websocket_handler.py`) -/

/-- Embeds `_is_tools_list_response`. -/
def is_tools_list_response (message_data : JsonObj) : Bool :=
  (match alookup message_data "jsonrpc" with
   | some (.str s) => s == "2.0"
   | _ => false) &&
  (match alookup message_data "result" with
   | some (.obj result) => (alookup result "tools").isSome
   | _ => false)

/-- Embeds `_is_initialize_response`. -/
def is_initialize_response (message_data : JsonObj) : Bool :=
  (match alookup message_data "jsonrpc" with
   | some (.str s) => s == "2.0"
   | _ => false) &&
  (match alookup message_data "result" with
   | some (.obj result) => (alookup result "protocolVersion").isSome
   | _ => false)

/-- Embeds `_is_tool_call_request`. -/
def is_tool_call_request (message_data : JsonObj) : Bool :=
  (match alookup message_data "jsonrpc" with
   | some (.str s) => s == "2.0"
   | _ => false) &&
  (match alookup message_data "method" with
   | some (.str s) => s == "tools/call"
   | _ => false)

/-- Embeds `_handle_tools_list_response`: pull `result.tools` (defaults
as in `dict.get`) and update the tool map. -/
def handle_tools_list_response (cm : ConnectionManager)
    (agent_id server_id : String) (message_data : JsonObj) : ConnectionManager :=
  let result := match alookup message_data "result" with
    | some (.obj r) => r
    | _ => []
  let tools := match alookup result "tools" with
    | some (.arr ts) => ts
    | _ => []
  update_tool_list cm agent_id server_id tools

/-- Embeds `_handle_initialize_response`. -/
def handle_initialize_response (cm : ConnectionManager)
    (agent_id server_id : String) (message_data : JsonObj) : ConnectionManager :=
  let result := match alookup message_data "result" with
    | some (.obj r) => r
    | _ => []
  update_server_info cm agent_id server_id result

/-- Pending registration/removal guard shared by the caller-side paths:
the source tests `if transformed_request_id:`; after
`transform_jsonrpc_message` every truthy id is a string, so the guard
extracts exactly the nonempty-string case. -/
def truthyStringId (transformed : JsonObj) : Option String :=
  match alookup transformed "id" with
  | some (.str s) => if s = "" then none else some s
  | _ => none

/-- The source's `if transformed_request_id: register_pending_response(...)`:
register the correlation under the transformed id when it is truthy. -/
def pending_after_register (cm : ConnectionManager) (message_data : JsonObj)
    (connection_uuid : String) (request_id : Json) (expected_servers : List String) :
    ConnectionManager :=
  match truthyStringId (transform_jsonrpc_message message_data connection_uuid) with
  | some tid => register_pending_response cm tid request_id connection_uuid expected_servers
  | none => cm

/-- The source's `if transformed_request_id: remove_pending_response(...)`
cleanup after an all-forwards-failed error. -/
def pending_cleanup (cm : ConnectionManager) (message_data : JsonObj)
    (connection_uuid : String) : ConnectionManager :=
  match truthyStringId (transform_jsonrpc_message message_data connection_uuid) with
  | some tid => remove_pending_response cm tid
  | none => cm

/-- Forward-failure tail of `_handle_tool_call_request`: on failure of
the single forward, answer `ForwardFailed` and drop the pending entry. -/
def tool_call_after_forward (fres : Bool × ConnectionManager × List Evt)
    (message_data : JsonObj) (connection_uuid : String) (request_id : Json)
    (env : SendEnv) : ConnectionManager × List Evt :=
  if !fres.1 then
    (pending_cleanup
      (forward_to_robot_by_uuid fres.2.1 connection_uuid
        (create_error_response FORWARD_FAILED "转发工具调用请求失败" request_id) env).2.1
      message_data connection_uuid,
     fres.2.2 ++
      (forward_to_robot_by_uuid fres.2.1 connection_uuid
        (create_error_response FORWARD_FAILED "转发工具调用请求失败" request_id) env).2.2)
  else (fres.2.1, fres.2.2)

/-- Success path of `_handle_tool_call_request` once the tool resolved
to a connected server: rewrite the id, register the pending correlation
when the transformed id is truthy, forward to the single server, and
handle forward failure. -/
def tool_call_forward (cm : ConnectionManager) (message_data : JsonObj)
    (agent_id connection_uuid : String) (request_id : Json) (env : SendEnv)
    (server_id : String) : ConnectionManager × List Evt :=
  tool_call_after_forward
    (forward_to_mcp_server
      (pending_after_register cm message_data connection_uuid request_id [server_id])
      agent_id server_id (transform_jsonrpc_message message_data connection_uuid) env)
    message_data connection_uuid request_id env

/-- Body of `_handle_tool_call_request` after `params` extraction: the
dispatch ladder (missing name, unresolved tool, disconnected server),
then rewrite, pending registration, forward, and forward-failure
cleanup in program order. -/
def tool_call_body (cm : ConnectionManager) (message_data : JsonObj)
    (agent_id connection_uuid : String) (request_id : Json) (env : SendEnv)
    (params : JsonObj) : ConnectionManager × List Evt :=
  if !((alookup params "name").getD .null).truthy then
    let r := forward_to_robot_by_uuid cm connection_uuid
      (create_error_response INVALID_PARAMS "缺少工具名称" request_id) env
    (r.2.1, r.2.2)
  else
    match find_tool_server cm agent_id ((alookup params "name").getD .null) with
    | none =>
      let r := forward_to_robot_by_uuid cm connection_uuid
        (create_error_response METHOD_NOT_FOUND
          ("工具 \x27" ++ pyStr ((alookup params "name").getD .null) ++ "\x27 不存在")
          request_id) env
      (r.2.1, r.2.2)
    | some server_id =>
      if !is_mcp_server_connected cm agent_id server_id then
        let r := forward_to_robot_by_uuid cm connection_uuid
          (create_error_response TOOL_NOT_CONNECTED
            ("MCP服务器 \x27" ++ server_id ++ "\x27 未连接") request_id) env
        (r.2.1, r.2.2)
      else
        tool_call_forward cm message_data agent_id connection_uuid request_id env server_id

/-- Embeds `_handle_tool_call_request` on a parsed message.  The last
(non-dict `params`) case models `params.get` raising `AttributeError`,
which the source's blanket `except` answers with the `-32603` frame.
Returns the updated state and the send attempts in program order. -/
def handle_tool_call_request (cm : ConnectionManager) (message_data : JsonObj)
    (agent_id connection_uuid : String) (request_id : Json) (env : SendEnv) :
    ConnectionManager × List Evt :=
  match alookup message_data "params" with
  | none => tool_call_body cm message_data agent_id connection_uuid request_id env []
  | some (.obj fields) =>
    tool_call_body cm message_data agent_id connection_uuid request_id env fields
  | some _ =>
    let r := forward_to_robot_by_uuid cm connection_uuid
      (create_error_response INTERNAL_ERROR "处理工具调用请求时发生错误" request_id) env
    (r.2.1, r.2.2)

/-- Embeds the forward loop of `_handle_robot_message`: iterate the
connected servers, re-checking liveness against the evolving state, and
count successes. -/
def robotForwardLoop (agent_id : String) (transformed : JsonObj) (env : SendEnv)
    (servers : List String) (start : ConnectionManager) :
    ConnectionManager × List Evt × Nat :=
  servers.foldl (fun acc server_id =>
    if is_mcp_server_connected acc.1 agent_id server_id then
      let f := forward_to_mcp_server acc.1 agent_id server_id transformed env
      (f.2.1, acc.2.1 ++ f.2.2, acc.2.2 + (if f.1 then 1 else 0))
    else acc) (start, [], 0)

/-- All-forwards-failed tail of `_handle_robot_message`: when no
forward succeeded, answer `ForwardFailed` and drop the pending entry. -/
def robot_after_loop (loopres : ConnectionManager × List Evt × Nat)
    (message_data : JsonObj) (agent_id connection_uuid : String)
    (request_id : Json) (env : SendEnv) : ConnectionManager × List Evt :=
  if loopres.2.2 = 0 then
    (pending_cleanup
      (forward_to_robot_by_uuid loopres.1 connection_uuid
        (create_forward_failed_error request_id agent_id) env).2.1
      message_data connection_uuid,
     loopres.2.1 ++
      (forward_to_robot_by_uuid loopres.1 connection_uuid
        (create_forward_failed_error request_id agent_id) env).2.2)
  else (loopres.1, loopres.2.1)

/-- Fan-out path of `_handle_robot_message`: register the pending
correlation under the truthy transformed id, forward the rewritten
frame to every connected server, and handle total failure. -/
def robot_broadcast (cm : ConnectionManager) (message_data : JsonObj)
    (agent_id connection_uuid : String) (request_id : Json) (env : SendEnv)
    (connected_servers : List String) : ConnectionManager × List Evt :=
  robot_after_loop
    (robotForwardLoop agent_id (transform_jsonrpc_message message_data connection_uuid)
      env connected_servers
      (pending_after_register cm message_data connection_uuid request_id connected_servers))
    message_data agent_id connection_uuid request_id env

/-- Embeds `_handle_robot_message` on a parsed message (a frame that is
not valid JSON is logged and, when servers exist, dies on the source's
unbound `transformed_message_data` before any send, so only parsed
dicts produce effects).  Dispatches `tools/call` to
`handle_tool_call_request`; otherwise rewrites the id, reports
`ToolNotConnected`/`ForwardFailed` when no server is available,
registers the pending correlation under the truthy transformed id, and
fans out to every connected server of the agent. -/
def handle_robot_message (cm : ConnectionManager) (agent_id : String)
    (message_data : JsonObj) (connection_uuid : String) (env : SendEnv) :
    ConnectionManager × List Evt :=
  if is_tool_call_request message_data then
    handle_tool_call_request cm message_data agent_id connection_uuid
      ((alookup message_data "id").getD .null) env
  else
    if (get_agent_servers cm agent_id).isEmpty then
      let r := forward_to_robot_by_uuid cm connection_uuid
        (create_tool_not_connected_error ((alookup message_data "id").getD .null) agent_id) env
      (r.2.1, r.2.2)
    else
      if ((get_agent_servers cm agent_id).filter
          (fun server_id => is_mcp_server_connected cm agent_id server_id)).isEmpty then
        let r := forward_to_robot_by_uuid cm connection_uuid
          (create_forward_failed_error ((alookup message_data "id").getD .null) agent_id) env
        (r.2.1, r.2.2)
      else
        robot_broadcast cm message_data agent_id connection_uuid
          ((alookup message_data "id").getD .null) env
          ((get_agent_servers cm agent_id).filter
            (fun server_id => is_mcp_server_connected cm agent_id server_id))

/-- The catalog/server-info prefix of `_handle_mcp_server_message`:
apply the tools-list and initialize updates when the message matches
their shapes. -/
def apply_catalog_updates (cm : ConnectionManager) (agent_id server_id : String)
    (message_data : JsonObj) : ConnectionManager :=
  let cm1 := if is_tools_list_response message_data
    then handle_tools_list_response cm agent_id server_id message_data else cm
  if is_initialize_response message_data
    then handle_initialize_response cm1 agent_id server_id message_data else cm1

/-- Embeds `_handle_mcp_server_message` on a parsed message (non-JSON
frames are logged and dropped).  Updates the tool catalog and server
info, then, when the id is a truthy string hitting the pending table,
records the response; on completion it aggregates, forwards the
aggregated frame to the pending entry's caller, removes the entry,
restores the id, and forwards the restored frame to the decoded
caller. -/
def handle_mcp_server_message (cm : ConnectionManager) (agent_id server_id : String)
    (message_data : JsonObj) (env : SendEnv) : ConnectionManager × List Evt :=
  match alookup message_data "id" with
  | some (.str transformed_id) =>
    if transformed_id ≠ "" ∧
        (alookup (apply_catalog_updates cm agent_id server_id
          message_data).pending_responses transformed_id).isSome then
      let a := add_server_response
        (apply_catalog_updates cm agent_id server_id message_data)
        transformed_id server_id message_data
      match a.2 with
      | some pending =>
        let aggregated := aggregate_responses pending
        let r1 := forward_to_robot_by_uuid a.1 pending.connection_uuid aggregated env
        let cm5 := remove_pending_response r1.2.1 transformed_id
        match restore_jsonrpc_message aggregated with
        | (some connection_uuid, restored) =>
          let r2 := forward_to_robot_by_uuid cm5 connection_uuid restored env
          (r2.2.1, r1.2.2 ++ r2.2.2)
        | (none, _) => (cm5, r1.2.2)
      | none => (a.1, [])
    else (apply_catalog_updates cm agent_id server_id message_data, [])
  | _ => (apply_catalog_updates cm agent_id server_id message_data, [])

/-! ### Observations over handler traces and states -/

/-- The frames a given caller connection actually receives from a
handler run: successful robot sends addressed to it, in order. -/
def robotFramesTo (connection_uuid : String) (evs : List Evt) : List JsonObj :=
  evs.filterMap (fun e =>
    match e with
    | .toRobot u frame true => if u = connection_uuid then some frame else none
    | _ => none)

/-- Whether a trace contains any forward attempt to a tool server. -/
def hasServerSend (evs : List Evt) : Bool :=
  evs.any (fun e => match e with | .toServer _ _ _ _ => true | _ => false)

/-- The claimed pending-table invariant: the keys of the received map
are contained in the expected set. -/
def received_keys_subset (pending : PendingResponse) : Bool :=
  pending.received_responses.all (fun kv => pending.expected_servers.contains kv.1)

/-- The condition under which `_handle_mcp_server_message` treats a
message as a pending response: a truthy id that is a key of the pending
table (pending keys are always nonempty strings). -/
def pending_hit (cm : ConnectionManager) (message_data : JsonObj) : Bool :=
  match alookup message_data "id" with
  | some (.str s) => if s = "" then false else (alookup cm.pending_responses s).isSome
  | _ => false

/-- The JSON-RPC error code carried by a frame, if any. -/
def errorCode (frame : JsonObj) : Option Int :=
  match alookup frame "error" with
  | some (.obj e) =>
    (match alookup e "code" with
     | some (.num c) => some c
     | _ => none)
  | _ => none

/-! ### Concrete scenario states used by witnesses and counterexamples -/

/-- An environment in which every socket send succeeds. -/
def envOk : SendEnv := ⟨fun _ => .ok, fun _ => .ok⟩

/-- An environment in which every tool-server send raises
`ConnectionClosed`. -/
def envServerClosed : SendEnv := ⟨fun _ => .ok, fun _ => .closed⟩

/-- Scenario state for the single-server roundtrip: tool server
`(agentA, srv1)` publishing tool `calc`, one caller with connection
UUID `u`. -/
def cmC1 : ConnectionManager :=
  ⟨[("agentA", [("srv1",
      ⟨10, "agentA", "srv1", "suuid",
       [("calc", .obj [("name", .str "calc"), ("server_id", .str "srv1")])], []⟩)])],
   [("u", ⟨11, "agentA", "u"⟩)], []⟩

/-- The caller's `tools/call` request with id 7. -/
def callMsgC1 : JsonObj :=
  [("jsonrpc", .str "2.0"), ("id", .num 7), ("method", .str "tools/call"),
   ("params", .obj [("name", .str "calc"), ("arguments", .obj [("x", .num 1)])])]

/-- The tool server's result frame, carrying the rewritten id. -/
def replyC1 : JsonObj :=
  [("jsonrpc", .str "2.0"), ("id", .str "u_n_7"),
   ("result", .obj [("content",
      .arr [.obj [("type", .str "text"), ("text", .str "ok")]])])]

/-- State of the router after forwarding the C1 request. -/
def cmC1after : ConnectionManager × List Evt :=
  handle_robot_message cmC1 "agentA" callMsgC1 "u" envOk

/-- The aggregated frame of the C1 scenario (still carrying the
rewritten id). -/
def aggFrameC1 : JsonObj :=
  [("jsonrpc", .str "2.0"), ("id", .str "u_n_7"),
   ("result", .obj [("content",
      .arr [.obj [("type", .str "text"), ("text", .str "ok")]]),
      ("total_servers", .num 1), ("responded_servers", .num 1)])]

/-- The restored frame of the C1 scenario (original id 7). -/
def restoredFrameC1 : JsonObj :=
  [("jsonrpc", .str "2.0"), ("id", .num 7),
   ("result", .obj [("content",
      .arr [.obj [("type", .str "text"), ("text", .str "ok")]]),
      ("total_servers", .num 1), ("responded_servers", .num 1)])]

/-- State with a pending entry expecting only server `a`. -/
def cmC3 : ConnectionManager :=
  ⟨[], [], [("t", ⟨.num 1, "u", ["a"], []⟩)]⟩

/-- State with a live caller `u` and an empty pending table. -/
def cmC4 : ConnectionManager :=
  ⟨[], [("u", ⟨5, "a", "u"⟩)], []⟩

/-- A late tool-server result frame whose rewritten id decodes to the
live caller `u` but hits no pending entry. -/
def msgC4 : JsonObj :=
  [("jsonrpc", .str "2.0"), ("id", .str "u_n_9"),
   ("result", .obj [("ok", .bool true)])]

/-- State with a tool server occupying the pair `(a, s1)` on socket 3. -/
def cmC7 : ConnectionManager :=
  ⟨[("a", [("s1", ⟨3, "a", "s1", "old", [], []⟩)])], [], []⟩

/-- State for the error-ladder witness: a caller `u` under agent `a`
with no tool servers. -/
def cmC8 : ConnectionManager :=
  ⟨[], [("u", ⟨6, "a", "u"⟩)], []⟩

/-- A `tools/call` request with no `params.name`. -/
def msgC8 : JsonObj :=
  [("jsonrpc", .str "2.0"), ("id", .num 3), ("method", .str "tools/call"),
   ("params", .obj [("arguments", .obj [])])]

/-- A non-`tools/call` request whose id is the falsy integer 0. -/
def msgC9 : JsonObj :=
  [("jsonrpc", .str "2.0"), ("id", .num 0), ("method", .str "ping"),
   ("params", .obj [])]

/-! ### Association-list lemmas -/

theorem alookup_append_none {α : Type} (l1 l2 : List (String × α)) (k : String)
    (h : alookup l1 k = none) : alookup (l1 ++ l2) k = alookup l2 k := by
  induction l1 with
  | nil => simp
  | cons kv rest ih =>
    rw [alookup] at h
    by_cases hk : kv.1 = k
    · rw [if_pos hk] at h; exact absurd h (by simp)
    · rw [if_neg hk] at h
      simp only [List.cons_append]
      rw [alookup, if_neg hk]
      exact ih h

theorem alookup_replace_self {α : Type} (l : List (String × α)) (k : String) (v : α) :
    alookup (l.map (fun kv => if kv.1 = k then (k, v) else kv)) k =
      if (alookup l k).isSome then some v else none := by
  induction l with
  | nil => simp [alookup]
  | cons kv rest ih =>
    by_cases hk : kv.1 = k
    · simp [alookup, hk]
    · simp [alookup, hk, ih]

theorem alookup_replace_ne {α : Type} (l : List (String × α)) (k k2 : String) (v : α)
    (h : k2 ≠ k) :
    alookup (l.map (fun kv => if kv.1 = k then (k, v) else kv)) k2 = alookup l k2 := by
  induction l with
  | nil => simp
  | cons kv rest ih =>
    simp only [List.map_cons]
    by_cases hk : kv.1 = k
    · rw [if_pos hk]
      have hne1 : ¬ ((k, v).1 = k2) := fun hh => h hh.symm
      have hne2 : ¬ (kv.1 = k2) := fun hh => h ((hk.symm.trans hh).symm)
      rw [alookup, if_neg hne1, alookup, if_neg hne2]
      exact ih
    · rw [if_neg hk, alookup, alookup]
      by_cases hk2 : kv.1 = k2
      · rw [if_pos hk2, if_pos hk2]
      · rw [if_neg hk2, if_neg hk2]; exact ih

theorem alookup_append_single_ne {α : Type} (l : List (String × α)) (k k2 : String)
    (v : α) (h : k2 ≠ k) : alookup (l ++ [(k, v)]) k2 = alookup l k2 := by
  induction l with
  | nil =>
    simp only [List.nil_append]
    show (if (k, v).1 = k2 then some (k, v).2 else alookup [] k2) = alookup [] k2
    rw [if_neg (fun hh : (k, v).1 = k2 => h hh.symm)]
  | cons kv rest ih =>
    simp only [List.cons_append]
    rw [alookup, alookup]
    by_cases hk2 : kv.1 = k2
    · rw [if_pos hk2, if_pos hk2]
    · rw [if_neg hk2, if_neg hk2]; exact ih

theorem alookup_aset_self {α : Type} (l : List (String × α)) (k : String) (v : α) :
    alookup (aset l k v) k = some v := by
  unfold aset
  by_cases h : (alookup l k).isSome
  · simp [h, alookup_replace_self]
  · rw [if_neg h]
    have hnone : alookup l k = none := by
      cases hh : alookup l k with
      | none => rfl
      | some w => rw [hh] at h; simp at h
    rw [alookup_append_none _ _ _ hnone]
    simp [alookup]

theorem alookup_aset_ne {α : Type} (l : List (String × α)) (k k2 : String) (v : α)
    (h : k2 ≠ k) : alookup (aset l k v) k2 = alookup l k2 := by
  unfold aset
  by_cases hs : (alookup l k).isSome
  · rw [if_pos hs]; exact alookup_replace_ne l k k2 v h
  · rw [if_neg hs]; exact alookup_append_single_ne l k k2 v h

theorem alookup_aerase_self {α : Type} (l : List (String × α)) (k : String) :
    alookup (aerase l k) k = none := by
  induction l with
  | nil => rfl
  | cons kv rest ih =>
    unfold aerase at ih ⊢
    simp only [List.filter_cons, decide_not] at ih ⊢
    by_cases hk : kv.1 = k
    · simp [hk, ih]
    · simp [hk, alookup, ih]

theorem keys_aset_pred {α : Type} (l : List (String × α)) (k : String) (v : α)
    (pred : String → Bool) (hl : ∀ kv ∈ l, pred kv.1 = true) (hk : pred k = true) :
    ∀ kv ∈ aset l k v, pred kv.1 = true := by
  intro kv hkv
  unfold aset at hkv
  by_cases hs : (alookup l k).isSome
  · rw [if_pos hs] at hkv
    obtain ⟨q, hq, hmap⟩ := List.mem_map.mp hkv
    by_cases hqk : q.1 = k
    · rw [if_pos hqk] at hmap; rw [← hmap]; exact hk
    · rw [if_neg hqk] at hmap; rw [← hmap]; exact hl q hq
  · rw [if_neg hs] at hkv
    rcases List.mem_append.mp hkv with hmem | hmem
    · exact hl kv hmem
    · have heq : kv = (k, v) := by simpa using hmem
      rw [heq]; exact hk

theorem keys_aset_of_isSome {α : Type} (l : List (String × α)) (k : String) (v : α)
    (h : (alookup l k).isSome = true) :
    (aset l k v).map Prod.fst = l.map Prod.fst := by
  unfold aset
  rw [if_pos h, List.map_map]
  refine List.map_congr_left ?_
  intro kv _
  by_cases hk : kv.1 = k
  · simp [hk]
  · simp [hk]

/-! ### State-preservation lemmas -/

theorem unregister_mcp_pending (cm : ConnectionManager) (agent_id server_id : String) :
    (unregister_mcp_server_connection cm agent_id server_id).pending_responses =
      cm.pending_responses := by
  unfold unregister_mcp_server_connection
  split
  · rfl
  · split
    · split <;> rfl
    · rfl

theorem unregister_robot_pending (cm : ConnectionManager) (connection_uuid : String) :
    (unregister_robot_connection cm connection_uuid).pending_responses =
      cm.pending_responses := rfl

theorem forward_server_pending (cm : ConnectionManager) (agent_id server_id : String)
    (frame : JsonObj) (env : SendEnv) :
    (forward_to_mcp_server cm agent_id server_id frame env).2.1.pending_responses =
      cm.pending_responses := by
  unfold forward_to_mcp_server
  split
  · rfl
  · split
    · rfl
    · split <;> first | rfl | exact unregister_mcp_pending _ _ _

theorem forward_robot_pending (cm : ConnectionManager) (connection_uuid : String)
    (frame : JsonObj) (env : SendEnv) :
    (forward_to_robot_by_uuid cm connection_uuid frame env).2.1.pending_responses =
      cm.pending_responses := by
  unfold forward_to_robot_by_uuid
  split
  · rfl
  · split <;> rfl

theorem robotForwardLoop_pending (agent_id : String) (transformed : JsonObj)
    (env : SendEnv) (servers : List String) (start : ConnectionManager) :
    (robotForwardLoop agent_id transformed env servers start).1.pending_responses =
      start.pending_responses := by
  unfold robotForwardLoop
  suffices h : ∀ (l : List String) (acc : ConnectionManager × List Evt × Nat),
      (l.foldl (fun acc server_id =>
        if is_mcp_server_connected acc.1 agent_id server_id then
          let f := forward_to_mcp_server acc.1 agent_id server_id transformed env
          (f.2.1, acc.2.1 ++ f.2.2, acc.2.2 + (if f.1 then 1 else 0))
        else acc) acc).1.pending_responses = acc.1.pending_responses by
    exact h servers (start, [], 0)
  intro l
  induction l with
  | nil => intro acc; rfl
  | cons s rest ih =>
    intro acc
    simp only [List.foldl_cons]
    rw [ih]
    by_cases hc : is_mcp_server_connected acc.1 agent_id s
    · rw [if_pos hc]
      exact forward_server_pending _ _ _ _ _
    · rw [if_neg hc]

theorem update_tool_list_pending (cm : ConnectionManager) (agent_id server_id : String)
    (tools : List Json) :
    (update_tool_list cm agent_id server_id tools).pending_responses =
      cm.pending_responses := by
  unfold update_tool_list
  split <;> try rfl
  split <;> try rfl
  split <;> rfl

theorem update_server_info_pending (cm : ConnectionManager) (agent_id server_id : String)
    (server_info : JsonObj) :
    (update_server_info cm agent_id server_id server_info).pending_responses =
      cm.pending_responses := by
  unfold update_server_info
  split <;> try rfl
  split <;> rfl

/-! ### Decimal round-trip lemmas for the ID rewriter -/

theorem natDigitsAux_lt_ten : ∀ (fuel n d : Nat), d ∈ natDigitsAux fuel n → d < 10 := by
  intro fuel
  induction fuel with
  | zero => intro n d h; simp [natDigitsAux] at h
  | succ fuel ih =>
    intro n d h
    unfold natDigitsAux at h
    by_cases hn : n = 0
    · simp [hn] at h
    · rw [if_neg hn] at h
      rcases List.mem_cons.mp h with h1 | h1
      · rw [h1]; exact Nat.mod_lt _ (by norm_num)
      · exact ih _ _ h1

theorem digitsVal_natDigitsAux : ∀ (fuel n : Nat), n ≤ fuel →
    digitsVal (natDigitsAux fuel n) = n := by
  intro fuel
  induction fuel with
  | zero =>
    intro n h
    interval_cases n
    rfl
  | succ fuel ih =>
    intro n h
    unfold natDigitsAux
    by_cases hn : n = 0
    · simp [hn, digitsVal]
    · rw [if_neg hn]
      rw [digitsVal]
      have hdiv : n / 10 ≤ fuel := by
        have : n / 10 < n := Nat.div_lt_self (Nat.pos_of_ne_zero hn) (by norm_num)
        omega
      rw [ih _ hdiv]
      omega

theorem natDigits_ne_nil (n : Nat) (h : n ≠ 0) : natDigits n ≠ [] := by
  unfold natDigits
  cases n with
  | zero => exact absurd rfl h
  | succ m =>
    unfold natDigitsAux
    rw [if_neg h]
    exact List.cons_ne_nil _ _

theorem digitChar_facts (d : Nat) (h : d < 10) :
    (Nat.digitChar d).isDigit = true ∧ Nat.digitChar d ≠ '_' ∧
    (Nat.digitChar d).toNat - 48 = d ∧ isPyWhitespace (Nat.digitChar d) = false ∧
    Nat.digitChar d ≠ '+' ∧ Nat.digitChar d ≠ '-' := by
  interval_cases d <;> exact ⟨by decide, by decide, by decide, by decide, by decide, by decide⟩

theorem isDigit_props (c : Char) (h : c.isDigit = true) :
    isPyWhitespace c = false ∧ c ≠ '+' ∧ c ≠ '-' ∧ c ≠ '_' := by
  refine ⟨?_, ?_, ?_, ?_⟩
  · unfold isPyWhitespace
    by_cases h1 : c = ' '
    · rw [h1] at h; exact absurd h (by decide)
    by_cases h2 : c = '\t'
    · rw [h2] at h; exact absurd h (by decide)
    by_cases h3 : c = '\n'
    · rw [h3] at h; exact absurd h (by decide)
    by_cases h4 : c = '\r'
    · rw [h4] at h; exact absurd h (by decide)
    by_cases h5 : c = '\x0b'
    · rw [h5] at h; exact absurd h (by decide)
    by_cases h6 : c = '\x0c'
    · rw [h6] at h; exact absurd h (by decide)
    simp [h1, h2, h3, h4, h5, h6]
  · intro hh; rw [hh] at h; exact absurd h (by decide)
  · intro hh; rw [hh] at h; exact absurd h (by decide)
  · intro hh; rw [hh] at h; exact absurd h (by decide)

theorem foldl_digitChars (ds : List Nat) :
    ∀ acc : Nat, (∀ d ∈ ds, d < 10) →
    List.foldl (fun a c => if c = '_' then a else a * 10 + (c.toNat - 48)) acc
      ((ds.reverse).map Nat.digitChar) = acc * 10 ^ ds.length + digitsVal ds := by
  induction ds with
  | nil => intro acc h; simp [digitsVal]
  | cons d tl ih =>
    intro acc h
    have hd : d < 10 := h d (List.mem_cons_self _ _)
    have htl : ∀ x ∈ tl, x < 10 := fun x hx => h x (List.mem_cons_of_mem _ hx)
    obtain ⟨-, hne, hval, -, -, -⟩ := digitChar_facts d hd
    simp only [List.reverse_cons, List.map_append, List.foldl_append, ih acc htl,
      List.map_cons, List.map_nil, List.foldl_cons, List.foldl_nil]
    rw [if_neg hne, hval]
    simp only [digitsVal, List.length_cons, pow_succ]
    ring

theorem digitsTail_of_digits : ∀ cs : List Char,
    (∀ c ∈ cs, c.isDigit = true) → digitsTail cs = true := by
  intro cs
  induction cs with
  | nil => intro _; rfl
  | cons c rest ih =>
    intro h
    have hc : c.isDigit = true := h c (List.mem_cons_self _ _)
    obtain ⟨-, -, -, hne⟩ := isDigit_props c hc
    unfold digitsTail
    rw [if_neg hne, hc]
    rw [ih (fun x hx => h x (List.mem_cons_of_mem _ hx))]
    rfl

theorem digitsOk_of_digits (cs : List Char) (hne : cs ≠ [])
    (h : ∀ c ∈ cs, c.isDigit = true) : digitsOk cs = true := by
  cases cs with
  | nil => exact absurd rfl hne
  | cons c rest =>
    simp only [digitsOk]
    rw [h c (List.mem_cons_self _ _),
      digitsTail_of_digits rest (fun x hx => h x (List.mem_cons_of_mem _ hx))]
    rfl

theorem dropWhile_of_all_false {p : Char → Bool} : ∀ cs : List Char,
    (∀ c ∈ cs, p c = false) → cs.dropWhile p = cs := by
  intro cs
  induction cs with
  | nil => intro _; rfl
  | cons c rest _ =>
    intro h
    rw [List.dropWhile_cons, h c (List.mem_cons_self _ _)]
    simp

theorem pyStrip_of_no_ws (cs : List Char)
    (h : ∀ c ∈ cs, isPyWhitespace c = false) : pyStrip cs = cs := by
  unfold pyStrip
  rw [dropWhile_of_all_false cs h]
  rw [dropWhile_of_all_false cs.reverse (fun c hc => h c (List.mem_reverse.mp hc))]
  exact List.reverse_reverse cs

theorem pyParseIntChars_digits (cs : List Char) (hne : cs ≠ [])
    (hdig : ∀ c ∈ cs, c.isDigit = true) :
    pyParseIntChars cs = (pyParseDigits cs).map Int.ofNat := by
  have hnows : ∀ c ∈ cs, isPyWhitespace c = false :=
    fun c hc => (isDigit_props c (hdig c hc)).1
  unfold pyParseIntChars
  rw [pyStrip_of_no_ws cs hnows]
  cases cs with
  | nil => exact absurd rfl hne
  | cons c rest =>
    obtain ⟨-, hplus, hminus, -⟩ := isDigit_props c (hdig c (List.mem_cons_self _ _))
    simp only [pySignParse]
    rw [if_neg hplus, if_neg hminus]

theorem natDecimal_chars (n : Nat) (hn : n ≠ 0) :
    (natDecimal n).data = (natDigits n).reverse.map Nat.digitChar := by
  unfold natDecimal
  rw [if_neg hn]

theorem natDecimal_chars_digit (n : Nat) (hn : n ≠ 0) :
    ∀ c ∈ (natDecimal n).data, c.isDigit = true := by
  rw [natDecimal_chars n hn]
  intro c hc
  obtain ⟨d, hd, hmap⟩ := List.mem_map.mp hc
  have hd10 : d < 10 := natDigitsAux_lt_ten n n d (List.mem_reverse.mp hd)
  rw [← hmap]
  exact (digitChar_facts d hd10).1

theorem natDecimal_chars_ne_nil (n : Nat) (hn : n ≠ 0) :
    (natDecimal n).data ≠ [] := by
  rw [natDecimal_chars n hn]
  intro h
  rcases List.map_eq_nil_iff.mp h with h2
  exact natDigits_ne_nil n hn (by simpa using congrArg List.reverse h2)

theorem pyParseDigits_natDecimal (n : Nat) (hn : n ≠ 0) :
    pyParseDigits (natDecimal n).data = some n := by
  unfold pyParseDigits
  rw [digitsOk_of_digits _ (natDecimal_chars_ne_nil n hn) (natDecimal_chars_digit n hn)]
  rw [if_pos rfl]
  unfold digitsCharVal
  rw [natDecimal_chars n hn]
  rw [foldl_digitChars (natDigits n) 0 (fun d hd => natDigitsAux_lt_ten n n d hd)]
  simp only [natDigits]
  rw [digitsVal_natDigitsAux n n (le_refl n)]
  simp

theorem pyParseInt_natDecimal (n : Nat) :
    pyParseInt (natDecimal n) = some (Int.ofNat n) := by
  by_cases hn : n = 0
  · rw [hn]; decide
  · unfold pyParseInt
    rw [pyParseIntChars_digits _ (natDecimal_chars_ne_nil n hn) (natDecimal_chars_digit n hn)]
    rw [pyParseDigits_natDecimal n hn]
    rfl

theorem pyParseInt_intDecimal (i : Int) : pyParseInt (intDecimal i) = some i := by
  cases i with
  | ofNat n => exact pyParseInt_natDecimal n
  | negSucc m =>
    show pyParseInt ("-" ++ natDecimal (m + 1)) = some (Int.negSucc m)
    unfold pyParseInt
    have hdata : ("-" ++ natDecimal (m + 1)).data = '-' :: (natDecimal (m + 1)).data := by
      rfl
    rw [hdata]
    unfold pyParseIntChars
    have hnows : ∀ c ∈ '-' :: (natDecimal (m + 1)).data, isPyWhitespace c = false := by
      intro c hc
      rcases List.mem_cons.mp hc with h1 | h1
      · rw [h1]; decide
      · exact (isDigit_props c (natDecimal_chars_digit (m + 1) (Nat.succ_ne_zero m) c h1)).1
    rw [pyStrip_of_no_ws _ hnows]
    simp only [pySignParse, if_true]
    rw [pyParseDigits_natDecimal (m + 1) (Nat.succ_ne_zero m)]
    rfl

/-! ### Separator-splitting lemmas for the ID rewriter -/

theorem containsChar_append (c : Char) (l1 l2 : List Char) :
    containsChar c (l1 ++ l2) = (containsChar c l1 || containsChar c l2) := by
  induction l1 with
  | nil => rfl
  | cons d rest ih => simp [containsChar, ih, Bool.or_assoc]

theorem splitOnceChar_encode (u t : List Char) (hu : containsChar '_' u = false) :
    splitOnceChar (u ++ '_' :: t) = some (u, t) := by
  induction u with
  | nil => simp [splitOnceChar]
  | cons c rest ih =>
    rw [containsChar, Bool.or_eq_false_iff] at hu
    have hc : ¬ (c = '_') := by simpa using hu.1
    simp only [List.cons_append, splitOnceChar]
    rw [if_neg hc]
    simp only [List.append_eq]
    rw [ih hu.2]
    rfl

theorem pySplit2_encode (u : List Char) (c : Char) (t : List Char)
    (hu : containsChar '_' u = false) (hc : c ≠ '_') :
    pySplit2 (u ++ '_' :: c :: '_' :: t) = [u, [c], t] := by
  unfold pySplit2
  rw [splitOnceChar_encode u _ hu]
  have h2 : splitOnceChar (c :: '_' :: t) = some ([c], t) := by
    simp only [splitOnceChar]
    rw [if_neg hc]
    simp [splitOnceChar]
  simp [h2]

theorem isEmpty_false_of_ne_nil {α : Type} (l : List α) (h : l ≠ []) :
    l.isEmpty = false := by
  cases l with
  | nil => exact absurd rfl h
  | cons a t => rfl

theorem restore_encoded (u : List Char) (hu : containsChar '_' u = false)
    (c : Char) (hc : c ≠ '_') (rest : List Char) :
    restore_jsonrpc_chars (u ++ '_' :: c :: '_' :: rest) = restoreTag u [c] rest := by
  have hne : u ++ '_' :: c :: '_' :: rest ≠ [] := by
    intro h
    exact List.cons_ne_nil _ _ (List.append_eq_nil.mp h).2
  have hcont : containsChar '_' (u ++ '_' :: c :: '_' :: rest) = true := by
    rw [containsChar_append]
    simp [containsChar]
  unfold restore_jsonrpc_chars
  rw [isEmpty_false_of_ne_nil _ hne, hcont]
  rw [pySplit2_encode u c rest hu hc]
  rfl

theorem splitOnceChar_some_contains : ∀ (cs : List Char) (p : List Char × List Char),
    splitOnceChar cs = some p → containsChar '_' cs = true := by
  intro cs
  induction cs with
  | nil => intro p h; simp [splitOnceChar] at h
  | cons c rest ih =>
    intro p h
    by_cases hc : c = '_'
    · rw [containsChar]; simp [hc]
    · rw [containsChar]
      simp only [splitOnceChar] at h
      rw [if_neg hc] at h
      cases hq : splitOnceChar rest with
      | none => rw [hq] at h; simp at h
      | some q => simp [ih q hq]

theorem tools_list_response_pending (cm : ConnectionManager) (agent_id server_id : String)
    (message_data : JsonObj) :
    (handle_tools_list_response cm agent_id server_id message_data).pending_responses =
      cm.pending_responses := by
  unfold handle_tools_list_response
  exact update_tool_list_pending _ _ _ _

theorem initialize_response_pending (cm : ConnectionManager) (agent_id server_id : String)
    (message_data : JsonObj) :
    (handle_initialize_response cm agent_id server_id message_data).pending_responses =
      cm.pending_responses := by
  unfold handle_initialize_response
  exact update_server_info_pending _ _ _ _

theorem catalog_updates_pending (cm : ConnectionManager) (agent_id server_id : String)
    (message_data : JsonObj) :
    (apply_catalog_updates cm agent_id server_id message_data).pending_responses =
      cm.pending_responses := by
  unfold apply_catalog_updates
  split <;> split <;>
    simp [initialize_response_pending, tools_list_response_pending]

theorem forward_robot_ok (cm : ConnectionManager) (connection_uuid : String)
    (frame : JsonObj) (env : SendEnv) (robot_conn : RobotConnection)
    (hrc : alookup cm.robot_connections connection_uuid = some robot_conn)
    (hok : env.robotSend robot_conn.socket = .ok) :
    forward_to_robot_by_uuid cm connection_uuid frame env =
      (true, cm, [.toRobot connection_uuid frame true]) := by
  unfold forward_to_robot_by_uuid
  rw [hrc]
  dsimp only
  rw [hok]

theorem unregister_disconnects (cm : ConnectionManager) (agent_id server_id : String) :
    is_mcp_server_connected (unregister_mcp_server_connection cm agent_id server_id)
      agent_id server_id = false := by
  unfold unregister_mcp_server_connection
  cases h : alookup cm.mcp_server_connections agent_id with
  | none =>
    unfold is_mcp_server_connected
    rw [h]
  | some servers =>
    dsimp only
    by_cases hs : (alookup servers server_id).isSome
    · rw [if_pos hs]
      by_cases he : (aerase servers server_id).isEmpty
      · rw [if_pos he]
        unfold is_mcp_server_connected
        dsimp only
        rw [alookup_aerase_self]
      · rw [if_neg he]
        unfold is_mcp_server_connected
        dsimp only
        rw [alookup_aset_self]
        show (alookup (aerase servers server_id) server_id).isSome = false
        rw [alookup_aerase_self]
        rfl
    · rw [if_neg hs]
      unfold is_mcp_server_connected
      rw [h]
      simpa using hs

theorem pending_after_register_id (cm : ConnectionManager) (message_data : JsonObj)
    (connection_uuid : String) (request_id : Json) (expected_servers : List String)
    (h : truthyStringId (transform_jsonrpc_message message_data connection_uuid) = none) :
    pending_after_register cm message_data connection_uuid request_id expected_servers
      = cm := by
  unfold pending_after_register
  rw [h]

theorem pending_cleanup_id (cm : ConnectionManager) (message_data : JsonObj)
    (connection_uuid : String)
    (h : truthyStringId (transform_jsonrpc_message message_data connection_uuid) = none) :
    pending_cleanup cm message_data connection_uuid = cm := by
  unfold pending_cleanup
  rw [h]

theorem tool_call_pending_preserved (cm : ConnectionManager) (message_data : JsonObj)
    (agent_id connection_uuid : String) (request_id : Json) (env : SendEnv)
    (h : truthyStringId (transform_jsonrpc_message message_data connection_uuid) = none) :
    (handle_tool_call_request cm message_data agent_id connection_uuid
      request_id env).1.pending_responses = cm.pending_responses := by
  unfold handle_tool_call_request
  have hbody : ∀ params : JsonObj,
      (tool_call_body cm message_data agent_id connection_uuid request_id env
        params).1.pending_responses = cm.pending_responses := by
    intro params
    unfold tool_call_body
    split
    · exact forward_robot_pending _ _ _ _
    · split
      · exact forward_robot_pending _ _ _ _
      · split
        · exact forward_robot_pending _ _ _ _
        · unfold tool_call_forward tool_call_after_forward
          rw [pending_after_register_id cm message_data connection_uuid request_id _ h]
          split
          · rw [pending_cleanup_id _ _ _ h, forward_robot_pending, forward_server_pending]
          · rw [forward_server_pending]
  split
  · exact hbody []
  · exact hbody _
  · exact forward_robot_pending _ _ _ _

theorem robot_message_pending_preserved (cm : ConnectionManager) (agent_id : String)
    (message_data : JsonObj) (connection_uuid : String) (env : SendEnv)
    (h : truthyStringId (transform_jsonrpc_message message_data connection_uuid) = none) :
    (handle_robot_message cm agent_id message_data connection_uuid
      env).1.pending_responses = cm.pending_responses := by
  unfold handle_robot_message
  split
  · exact tool_call_pending_preserved cm message_data agent_id connection_uuid _ env h
  · split
    · exact forward_robot_pending _ _ _ _
    · split
      · exact forward_robot_pending _ _ _ _
      · unfold robot_broadcast robot_after_loop
        rw [pending_after_register_id cm message_data connection_uuid _ _ h]
        split
        · rw [pending_cleanup_id _ _ _ h, forward_robot_pending, robotForwardLoop_pending]
        · rw [robotForwardLoop_pending]

/-! ## Claim theorems -/

/-- C1: evaluation of the code on the single-server roundtrip scenario.
The request with id 7 is forwarded once with the rewritten id `u_n_7`,
and when the tool server replies, the pending entry completes and is
removed — but the caller receives TWO frames, the first still carrying
the rewritten id `u_n_7` and the second the original id 7 with the
aggregated content and `total_servers`/`responded_servers` 1: the
handler forwards the aggregated frame once before restoring the id and
once after, diverging from the claimed (and spec-stated) single
delivery. -/
theorem C1_roundtrip_evaluation :
    cmC1after.2 =
      [Evt.toServer "agentA" "srv1" (transform_jsonrpc_message callMsgC1 "u") true] ∧
    alookup (transform_jsonrpc_message callMsgC1 "u") "id" = some (.str "u_n_7") ∧
    robotFramesTo "u" (handle_mcp_server_message cmC1after.1 "agentA" "srv1" replyC1 envOk).2
      = [aggFrameC1, restoredFrameC1] ∧
    alookup aggFrameC1 "id" = some (.str "u_n_7") ∧
    alookup restoredFrameC1 "id" = some (.num 7) ∧
    (handle_mcp_server_message cmC1after.1 "agentA" "srv1" replyC1 envOk).1.pending_responses
      = [] := by
  refine ⟨?_, ?_, ?_, ?_, ?_, ?_⟩ <;> decide

/-- C2 (amended): round-trip law of the ID rewriter.  For every caller
UUID (any string free of the underscore separator, which `uuid4` output
always is) and every original id that is an integer, or a string other
than the literal `"null"`, parsing the rewritten id recovers exactly
`(uuid, original id)`.  The string `"null"` is the single exception the
code forces: its rewritten form decodes to an absent id. -/
theorem C2_roundtrip (u : String) (hu : containsChar '_' u.data = false) :
    (∀ n : Int, restore_jsonrpc_id (transform_jsonrpc_id (.num n) u) = (some u, .num n)) ∧
    (∀ s : String, s ≠ "null" →
      restore_jsonrpc_id (transform_jsonrpc_id (.str s) u) = (some u, .str s)) := by
  constructor
  · intro n
    have hdata : (transform_jsonrpc_id (.num n) u).data
        = u.data ++ '_' :: 'n' :: '_' :: (intDecimal n).data := by
      show (u ++ "_n_" ++ intDecimal n).data = _
      rw [String.data_append, String.data_append, List.append_assoc]
      rw [(by decide : ("_n_" : String).data = ['_', 'n', '_'])]
      rfl
    unfold restore_jsonrpc_id
    rw [hdata, restore_encoded u.data hu 'n' (by decide) (intDecimal n).data]
    unfold restoreTag
    rw [if_pos (by decide : String.mk ['n'] = "n")]
    have hmk : String.mk (intDecimal n).data = intDecimal n := rfl
    rw [hmk, pyParseInt_intDecimal n]
  · intro s hs
    have hdata : (transform_jsonrpc_id (.str s) u).data
        = u.data ++ '_' :: 's' :: '_' :: s.data := by
      show (u ++ "_s_" ++ s).data = _
      rw [String.data_append, String.data_append, List.append_assoc]
      rw [(by decide : ("_s_" : String).data = ['_', 's', '_'])]
      rfl
    unfold restore_jsonrpc_id
    rw [hdata, restore_encoded u.data hu 's' (by decide) s.data]
    unfold restoreTag
    rw [if_neg (by decide : ¬ String.mk ['s'] = "n")]
    rw [if_pos (by decide : String.mk ['s'] = "s")]
    have hmks : String.mk s.data = s := rfl
    rw [hmks, if_neg hs]

/-- C2 witness: the round-trip law at the caller UUID `9a2f-c3` for the
integer id 7 and the string id `abc`. -/
theorem C2_roundtrip_witness :
    restore_jsonrpc_id (transform_jsonrpc_id (.num 7) "9a2f-c3")
      = (some "9a2f-c3", .num 7) ∧
    restore_jsonrpc_id (transform_jsonrpc_id (.str "abc") "9a2f-c3")
      = (some "9a2f-c3", .str "abc") :=
  ⟨(C2_roundtrip "9a2f-c3" (by decide)).1 7,
   (C2_roundtrip "9a2f-c3" (by decide)).2 "abc" (by decide)⟩

/-- C2 counterexample: the string id `"null"` does not round-trip — the
rewriter encodes it as `<uuid>_s_null` and the parser maps the literal
`null` payload back to an absent id, not to the string `"null"`. -/
theorem C2_null_counterexample :
    restore_jsonrpc_id (transform_jsonrpc_id (.str "null") "9a2f-c3")
      = (some "9a2f-c3", Json.null) ∧ Json.null ≠ Json.str "null" := by
  refine ⟨?_, ?_⟩ <;> decide

/-- C5 (amended): the parser returns none exactly for inputs whose
split yields fewer than three parts (subsuming the source's empty-id
and no-separator early returns); for a well-split input whose type tag
is neither `n` nor `s` it does NOT return none, but keeps the decoded
uuid together with the raw remainder string. -/
theorem C5_parse_failures (s : String) :
    ((pySplit2 s.data).length < 3 → restore_jsonrpc_id s = (none, Json.null)) ∧
    (∀ a b c, pySplit2 s.data = [a, b, c] → String.mk b ≠ "n" → String.mk b ≠ "s" →
      restore_jsonrpc_id s = (some (String.mk a), .str (String.mk c))) := by
  constructor
  · intro hlen
    unfold restore_jsonrpc_id restore_jsonrpc_chars
    by_cases hguard : (s.data.isEmpty || !containsChar '_' s.data) = true
    · rw [if_pos hguard]
    · rw [if_neg hguard]
      cases hsplit : pySplit2 s.data with
      | nil => rfl
      | cons a t1 =>
        cases t1 with
        | nil => rfl
        | cons b t2 =>
          cases t2 with
          | nil => rfl
          | cons c t3 =>
            cases t3 with
            | nil => rw [hsplit] at hlen; simp at hlen
            | cons d t4 => rfl
  · intro a b c hsplit hn hs
    unfold restore_jsonrpc_id restore_jsonrpc_chars
    have hcont : containsChar '_' s.data = true := by
      unfold pySplit2 at hsplit
      cases hq : splitOnceChar s.data with
      | none => rw [hq] at hsplit; simp at hsplit
      | some p => exact splitOnceChar_some_contains s.data p hq
    have hne : s.data.isEmpty = false := by
      cases hd : s.data with
      | nil => rw [hd] at hcont; simp [containsChar] at hcont
      | cons x y => rfl
    rw [hne, hcont]
    rw [if_neg (by decide : ¬ ((false || !true) = true))]
    rw [hsplit]
    show restoreTag a b c = _
    unfold restoreTag
    rw [if_neg hn, if_neg hs]

/-- C5 witness: at the well-split input `a_x_b` the theorem's second
part applies with tag `x`, and at `a_b` (two parts) the first part
applies. -/
theorem C5_parse_failures_witness :
    restore_jsonrpc_id "a_x_b" = (some "a", .str "b") ∧
    restore_jsonrpc_id "a_b" = (none, Json.null) :=
  ⟨(C5_parse_failures "a_x_b").2 ['a'] ['x'] ['b'] (by decide) (by decide) (by decide),
   (C5_parse_failures "a_b").1 (by decide)⟩

/-- C5 counterexample: an id whose type tag is `x` — neither `n` nor
`s` — is NOT rejected: the parser returns the uuid `a` and the raw
payload `b`, so the claimed none-result for unknown tags is false. -/
theorem C5_unknown_tag_counterexample :
    pySplit2 ("a_x_b" : String).data = [['a'], ['x'], ['b']] ∧
    (restore_jsonrpc_id "a_x_b").1 = some "a" ∧
    restore_jsonrpc_id "a_x_b" ≠ (none, Json.null) := by
  refine ⟨?_, ?_, ?_⟩ <;> decide

/-- C3 (amended): `add_server_response` performs no membership check,
so the subset invariant is only preserved conditionally: when the
pending entry at the key satisfies it and the responding server is in
its expected set, the updated entry satisfies it again.  Recording from
an unexpected server is possible and breaks it
(`C3_unexpected_server_counterexample`). -/
theorem C3_invariant_preserved (cm : ConnectionManager)
    (transformed_request_id server_id : String) (response : JsonObj)
    (pending : PendingResponse)
    (hp : alookup cm.pending_responses transformed_request_id = some pending)
    (hinv : received_keys_subset pending = true)
    (hmem : pending.expected_servers.contains server_id = true) :
    ∀ q, alookup (add_server_response cm transformed_request_id server_id
        response).1.pending_responses transformed_request_id = some q →
      received_keys_subset q = true := by
  have hstep : (add_server_response cm transformed_request_id server_id response).1
      = { cm with pending_responses := (aset cm.pending_responses transformed_request_id
          { pending with received_responses := (
              aset pending.received_responses server_id response) }) } := by
    unfold add_server_response
    rw [hp]
  intro q hq
  rw [hstep] at hq
  rw [show ({ cm with pending_responses := (aset cm.pending_responses transformed_request_id
      { pending with received_responses := (
        aset pending.received_responses server_id response) }) } :
      ConnectionManager).pending_responses
    = aset cm.pending_responses transformed_request_id
      { pending with received_responses := (
        aset pending.received_responses server_id response) } from rfl] at hq
  rw [alookup_aset_self] at hq
  injection hq with hq
  rw [← hq]
  unfold received_keys_subset at hinv ⊢
  rw [List.all_eq_true] at hinv ⊢
  intro kv hkv
  exact keys_aset_pred pending.received_responses server_id response _
    (fun kv2 h2 => hinv kv2 h2) hmem kv hkv

/-- C3 witness: preservation at the concrete state, recording the
expected server `a` into the pending entry at key `t`. -/
theorem C3_invariant_preserved_witness :
    received_keys_subset ⟨Json.num 1, "u", ["a"], [("a", [])]⟩ = true :=
  C3_invariant_preserved cmC3 "t" "a" [] ⟨Json.num 1, "u", ["a"], []⟩
    (by decide) (by decide) (by decide)
    ⟨Json.num 1, "u", ["a"], [("a", [])]⟩ (by decide)

/-- C3 counterexample: recording a response under server id `b`, which
is outside the expected set `{a}` of the pending entry, succeeds — the
source has no membership check — and afterwards the entry's received
keys are NOT a subset of its expected set, refuting both halves of the
claim. -/
theorem C3_unexpected_server_counterexample :
    (alookup (add_server_response cmC3 "t" "b" []).1.pending_responses "t").map
      received_keys_subset = some false := by
  decide

/-- C4 (amended): a tool-server message whose id does not hit the
pending table is simply dropped — the handler forwards nothing to any
caller (there is no decode-and-forward branch in this revision of the
code; `C4_live_caller_counterexample` shows the drop even when the id
decodes to a live caller). -/
theorem C4_nonpending_dropped (cm : ConnectionManager) (agent_id server_id : String)
    (message_data : JsonObj) (env : SendEnv)
    (h : pending_hit cm message_data = false) :
    (handle_mcp_server_message cm agent_id server_id message_data env).2 = [] := by
  unfold handle_mcp_server_message
  cases hid : alookup message_data "id" with
  | none => rfl
  | some tid =>
    cases tid with
    | null => rfl
    | bool b => rfl
    | num n => rfl
    | arr items => rfl
    | obj fields => rfl
    | str s =>
      unfold pending_hit at h
      rw [hid] at h
      dsimp only at h
      have hcond : ¬ (s ≠ "" ∧
          (alookup (apply_catalog_updates cm agent_id server_id
            message_data).pending_responses s).isSome = true) := by
        rintro ⟨hs, hsome⟩
        rw [if_neg hs] at h
        rw [catalog_updates_pending] at hsome
        rw [h] at hsome
        exact absurd hsome (by simp)
      dsimp only
      rw [if_neg hcond]

/-- C4 witness: the dropped late response at the concrete state with a
live caller. -/
theorem C4_nonpending_dropped_witness :
    (handle_mcp_server_message cmC4 "a" "s1" msgC4 envOk).2 = [] :=
  C4_nonpending_dropped cmC4 "a" "s1" msgC4 envOk (by decide)

/-- C4 counterexample: a result frame whose id `u_n_9` is not pending
but decodes to the live, registered caller `u` is NOT forwarded to that
caller — the handler produces no send at all, refuting the claimed
decode-and-forward behavior. -/
theorem C4_live_caller_counterexample :
    (handle_mcp_server_message cmC4 "a" "s1" msgC4 envOk).2 = [] ∧
    restore_jsonrpc_id "u_n_9" = (some "u", Json.num 9) ∧
    (alookup cmC4.robot_connections "u").isSome = true := by
  refine ⟨?_, ?_, ?_⟩ <;> decide

/-- C6: evaluation of the lock-faithful model at the failing input.
The missing-connection half of the claim holds — forwarding to an
unregistered pair completes with `False` and the registry untouched —
but the closed-socket half is a code bug: with the connection
registered and the send raising `ConnectionClosed`, the `except`
clause awaits the unregister coroutine while the body still holds the
non-reentrant registry lock, so the operation deadlocks; it never
returns `False` and the connection is never unregistered, against the
claimed (and spec-stated) completing contract. -/
theorem C6_closed_send_deadlock_evaluation :
    forward_to_mcp_server_locked cmC7 "zz" "s1" [] envOk
      = .completes (false, cmC7, []) ∧
    forward_to_mcp_server_locked cmC7 "a" "s1" [] envServerClosed
      = .deadlocks ∧
    unregister_mcp_server_connection_locked true cmC7 "a" "s1" = .deadlocks := by
  refine ⟨?_, ?_, ?_⟩ <;> decide

/-- C7 (amended): re-registering an occupied `(agent_id, server_id)`
pair closes the old socket with status 1000 — but with the source's
Chinese reason string `"新连接替换"` ("replaced by a new connection"),
not the literal `"connection replaced"` the claim quotes
(`C7_close_reason_counterexample`) — and afterwards the slot holds
exactly the new connection while every other slot is untouched (the
map-of-maps keyed by the pair admits at most one connection per pair). -/
theorem C7_displacement (cm : ConnectionManager) (agent_id server_id : String)
    (socket : Nat) (fresh_uuid : String) :
    (∀ old, lookupServer cm agent_id server_id = some old →
      (register_mcp_server_connection cm agent_id server_id socket fresh_uuid).2
        = [⟨old.socket, 1000, "新连接替换"⟩]) ∧
    (lookupServer cm agent_id server_id = none →
      (register_mcp_server_connection cm agent_id server_id socket fresh_uuid).2 = []) ∧
    lookupServer (register_mcp_server_connection cm agent_id server_id socket fresh_uuid).1
      agent_id server_id = some ⟨socket, agent_id, server_id, fresh_uuid, [], []⟩ ∧
    (∀ a s, ¬ (a = agent_id ∧ s = server_id) →
      lookupServer (register_mcp_server_connection cm agent_id server_id socket
        fresh_uuid).1 a s = lookupServer cm a s) := by
  refine ⟨?_, ?_, ?_, ?_⟩
  · intro old hold
    unfold register_mcp_server_connection
    unfold lookupServer at hold
    rw [hold]
  · intro hnone
    unfold register_mcp_server_connection
    unfold lookupServer at hnone
    rw [hnone]
  · unfold register_mcp_server_connection lookupServer
    dsimp only
    rw [alookup_aset_self]
    dsimp only [Option.getD]
    rw [alookup_aset_self]
  · intro a s hne
    unfold register_mcp_server_connection lookupServer
    dsimp only
    by_cases haeq : a = agent_id
    · have hsne : s ≠ server_id := fun hs => hne ⟨haeq, hs⟩
      rw [haeq]
      rw [alookup_aset_self]
      dsimp only [Option.getD]
      rw [alookup_aset_ne _ _ _ _ hsne]
    · rw [alookup_aset_ne _ _ _ _ haeq]

/-- C7 witness: at the occupied concrete state, the close event targets
the old socket 3 with status 1000, the slot afterwards holds the new
connection, and an unrelated slot is unchanged. -/
theorem C7_displacement_witness :
    (register_mcp_server_connection cmC7 "a" "s1" 4 "new").2
      = [⟨3, 1000, "新连接替换"⟩] ∧
    lookupServer (register_mcp_server_connection cmC7 "a" "s1" 4 "new").1 "a" "s1"
      = some ⟨4, "a", "s1", "new", [], []⟩ ∧
    lookupServer (register_mcp_server_connection cmC7 "a" "s1" 4 "new").1 "a" "s2"
      = lookupServer cmC7 "a" "s2" :=
  ⟨(C7_displacement cmC7 "a" "s1" 4 "new").1 ⟨3, "a", "s1", "old", [], []⟩ (by decide),
   (C7_displacement cmC7 "a" "s1" 4 "new").2.2.1,
   (C7_displacement cmC7 "a" "s1" 4 "new").2.2.2 "a" "s2" (by decide)⟩

/-- C7 counterexample: displacing the occupied pair emits a close with
code 1000 whose reason is the source's literal `"新连接替换"`, which is
not the string `"connection replaced"` the claim asserts. -/
theorem C7_close_reason_counterexample :
    (register_mcp_server_connection cmC7 "a" "s1" 4 "new").2
      = [⟨3, 1000, "新连接替换"⟩] ∧
    ("新连接替换" : String) ≠ "connection replaced" := by
  refine ⟨?_, ?_⟩ <;> decide

/-- C8: the tools/call dispatch ladder.  With the caller registered and
its socket accepting the reply, each error rung produces exactly one
frame back to the caller — `InvalidParams` when `params.name` is
absent, `MethodNotFound` when no server of the agent publishes the
tool, and the custom `ToolNotConnected` when the resolved server is not
connected — and the final state equals the initial one: no forward to
any tool server occurs and no `PendingResponse` is created.  Error
codes and frame shapes are modelled from the spec (`src/utils/jsonrpc.py`
is absent from the sources). -/
theorem C8_error_ladder (cm : ConnectionManager) (message_data : JsonObj)
    (agent_id connection_uuid : String) (request_id : Json) (env : SendEnv)
    (robot_conn : RobotConnection)
    (hrc : alookup cm.robot_connections connection_uuid = some robot_conn)
    (hok : env.robotSend robot_conn.socket = .ok) :
    ((match alookup message_data "params" with
      | none => true
      | some (.obj fields) => (alookup fields "name").isNone
      | some _ => false) = true →
      handle_tool_call_request cm message_data agent_id connection_uuid request_id env
        = (cm, [.toRobot connection_uuid
            (create_error_response INVALID_PARAMS "缺少工具名称" request_id) true])) ∧
    (∀ params nm, alookup message_data "params" = some (.obj params) →
      alookup params "name" = some nm → nm.truthy = true →
      find_tool_server cm agent_id nm = none →
      handle_tool_call_request cm message_data agent_id connection_uuid request_id env
        = (cm, [.toRobot connection_uuid
            (create_error_response METHOD_NOT_FOUND
              ("工具 \x27" ++ pyStr nm ++ "\x27 不存在") request_id) true])) ∧
    (∀ params nm server_id, alookup message_data "params" = some (.obj params) →
      alookup params "name" = some nm → nm.truthy = true →
      find_tool_server cm agent_id nm = some server_id →
      is_mcp_server_connected cm agent_id server_id = false →
      handle_tool_call_request cm message_data agent_id connection_uuid request_id env
        = (cm, [.toRobot connection_uuid
            (create_error_response TOOL_NOT_CONNECTED
              ("MCP服务器 \x27" ++ server_id ++ "\x27 未连接") request_id) true])) := by
  refine ⟨?_, ?_, ?_⟩
  · intro h
    unfold handle_tool_call_request
    cases hp : alookup message_data "params" with
    | none =>
      dsimp only
      unfold tool_call_body
      rw [if_pos (by decide :
        (!((alookup ([] : JsonObj) "name").getD Json.null).truthy) = true)]
      rw [forward_robot_ok cm connection_uuid _ env robot_conn hrc hok]
    | some p =>
      rw [hp] at h
      cases p with
      | obj fields =>
        dsimp only at h
        have hname : alookup fields "name" = none := by
          cases hx : alookup fields "name" with
          | none => rfl
          | some v => rw [hx] at h; simp at h
        dsimp only
        unfold tool_call_body
        rw [hname]
        rw [if_pos (by decide : (!((none : Option Json).getD Json.null).truthy) = true)]
        rw [forward_robot_ok cm connection_uuid _ env robot_conn hrc hok]
      | null => dsimp only at h; exact absurd h (by decide)
      | bool b => dsimp only at h; exact absurd h (by decide)
      | num n => dsimp only at h; exact absurd h (by decide)
      | str s => dsimp only at h; exact absurd h (by decide)
      | arr items => dsimp only at h; exact absurd h (by decide)
  · intro params nm hp hname htr hfind
    unfold handle_tool_call_request
    rw [hp]
    dsimp only
    unfold tool_call_body
    rw [hname]
    dsimp only [Option.getD]
    rw [htr]
    rw [if_neg (by decide : ¬ ((!true) = true))]
    rw [hfind]
    dsimp only
    rw [forward_robot_ok cm connection_uuid _ env robot_conn hrc hok]
  · intro params nm server_id hp hname htr hfind hconn
    unfold handle_tool_call_request
    rw [hp]
    dsimp only
    unfold tool_call_body
    rw [hname]
    dsimp only [Option.getD]
    rw [htr]
    rw [if_neg (by decide : ¬ ((!true) = true))]
    rw [hfind]
    dsimp only
    rw [hconn]
    rw [if_pos (by decide : (!false) = true)]
    rw [forward_robot_ok cm connection_uuid _ env robot_conn hrc hok]

/-- C8 witness: a `tools/call` with no `params.name`, from the caller
`u` of the concrete state, is answered by exactly the `-32602` frame
while the state is untouched. -/
theorem C8_error_ladder_witness :
    handle_tool_call_request cmC8 msgC8 "a" "u" (Json.num 3) envOk
      = (cmC8, [.toRobot "u"
          (create_error_response INVALID_PARAMS "缺少工具名称" (Json.num 3)) true]) :=
  (C8_error_ladder cmC8 msgC8 "a" "u" (Json.num 3) envOk ⟨6, "a", "u"⟩
    (by decide) (by decide)).1 (by decide)

/-- C9: a present-but-falsy JSON-RPC id — the integer 0 or the empty
string — passes through the message rewrite unchanged (no caller UUID
is encoded), and neither the generic caller-message path nor the
tools/call path registers any `PendingResponse`, so no later
tool-server response can be correlated back to the caller. -/
theorem C9_falsy_id (cm : ConnectionManager) (message_data : JsonObj)
    (agent_id connection_uuid : String) (env : SendEnv)
    (h : alookup message_data "id" = some (.num 0) ∨
      alookup message_data "id" = some (.str "")) :
    transform_jsonrpc_message message_data connection_uuid = message_data ∧
    (handle_robot_message cm agent_id message_data connection_uuid
      env).1.pending_responses = cm.pending_responses ∧
    (handle_tool_call_request cm message_data agent_id connection_uuid
      ((alookup message_data "id").getD .null) env).1.pending_responses
      = cm.pending_responses := by
  have htrans : transform_jsonrpc_message message_data connection_uuid = message_data := by
    unfold transform_jsonrpc_message
    rcases h with h | h <;> (rw [h]; rfl)
  have hguard : truthyStringId (transform_jsonrpc_message message_data connection_uuid)
      = none := by
    rw [htrans]
    unfold truthyStringId
    rcases h with h | h <;> (rw [h]; try rfl)
  exact ⟨htrans,
    robot_message_pending_preserved cm agent_id message_data connection_uuid env hguard,
    tool_call_pending_preserved cm message_data agent_id connection_uuid _ env hguard⟩

/-- C9 witness: the id-0 request at the concrete state. -/
theorem C9_falsy_id_witness :
    transform_jsonrpc_message msgC9 "u" = msgC9 ∧
    (handle_robot_message cmC8 "a" msgC9 "u" envOk).1.pending_responses
      = cmC8.pending_responses ∧
    (handle_tool_call_request cmC8 msgC9 "a" "u"
      ((alookup msgC9 "id").getD .null) envOk).1.pending_responses
      = cmC8.pending_responses :=
  C9_falsy_id cmC8 msgC9 "a" "u" envOk (Or.inl (by decide))

/-- C10: the message rewrite is pure (the embedding returns a fresh
object, mirroring the source's `message.copy()`), preserves the key
set, and changes no binding other than possibly the one at `"id"`. -/
theorem C10_frame_preservation (message : JsonObj) (connection_uuid : String) :
    (transform_jsonrpc_message message connection_uuid).map Prod.fst
      = message.map Prod.fst ∧
    (∀ k, k ≠ "id" →
      alookup (transform_jsonrpc_message message connection_uuid) k
        = alookup message k) := by
  unfold transform_jsonrpc_message
  cases hid : alookup message "id" with
  | none => exact ⟨rfl, fun k _ => rfl⟩
  | some original_id =>
    dsimp only
    by_cases ht : original_id.truthy
    · rw [if_pos ht]
      constructor
      · exact keys_aset_of_isSome message "id" _ (by rw [hid]; rfl)
      · intro k hk
        exact alookup_aset_ne message "id" k _ hk
    · rw [if_neg ht]
      exact ⟨rfl, fun k _ => rfl⟩

/-- C10 witness: at the concrete `tools/call` request, the rewrite
keeps the key list and the `method` binding. -/
theorem C10_frame_preservation_witness :
    (transform_jsonrpc_message msgC8 "u").map Prod.fst = msgC8.map Prod.fst ∧
    alookup (transform_jsonrpc_message msgC8 "u") "method" = alookup msgC8 "method" :=
  ⟨(C10_frame_preservation msgC8 "u").1,
   (C10_frame_preservation msgC8 "u").2 "method" (by decide)⟩

end McpEndpoint
